import Mathlib

/-!
# Goldfish paravirtual drivers: audio transport and lifecycle, TTY lines

A shallow embedding of `arch/arm/mach-goldfish/audio.c`, the audio driver of the
Android emulator (32-bit ARM): the interrupt handler, the read and write file
operations, and open and release; and of the functions of
`drivers/char/goldfish_tty.c` that open and close a line and set up a console.

Conventions of the embedding.

* `size_t` and `uint32_t` values are naturals below `2^32`; `int`, `ssize_t`
  and `atomic_t` values are integers wrapped to 32 bits by `s32`.  Every
  conversion and every arithmetic step that can wrap in C is written with
  `u32` or `s32`.
* Everything a function does that is visible outside it (register accesses,
  copies across the user boundary, returns of a blocking wait, wake-ups) is
  appended to a log of `Action`s, in program order.
* What happens while a caller is blocked is a list of `Event`s: interrupts,
  each carrying the value the status register will show, and signals.  An
  interrupt is taken where the caller waits; a call whose wait is never
  satisfied has no result (`none`).  The body of the write loop is also given
  on its own (`goldfish_audio_write_chunk`), with the interrupts it can take
  where it reads `buffer_status` outside the spin lock.
* User memory is addressed by integers; whether a copy across the user boundary
  faults is a parameter of the file operations.
* The array `goldfish_ttys` is a list; an access outside it has no result
  (`none`).
-/

namespace Goldfish

/-! ## Constants of `audio.c` -/

def READ_BUFFER_SIZE : Nat := 16384

def WRITE_BUFFER_SIZE : Nat := 16384

/-- Audio status register. -/
def AUDIO_INT_STATUS : Nat := 0x00

/-- Set this to enable IRQ. -/
def AUDIO_INT_ENABLE : Nat := 0x04

def AUDIO_SET_WRITE_BUFFER_1 : Nat := 0x08

def AUDIO_SET_WRITE_BUFFER_2 : Nat := 0x0C

/-- Set number of bytes in buffer to write. -/
def AUDIO_WRITE_BUFFER_1 : Nat := 0x10

def AUDIO_WRITE_BUFFER_2 : Nat := 0x14

def AUDIO_READ_SUPPORTED : Nat := 0x18

def AUDIO_SET_READ_BUFFER : Nat := 0x1C

/-- Driver writes number of bytes to read. -/
def AUDIO_START_READ : Nat := 0x20

/-- Number of bytes available in read buffer. -/
def AUDIO_READ_BUFFER_AVAILABLE : Nat := 0x24

def AUDIO_INT_WRITE_BUFFER_1_EMPTY : Nat := 1 <<< 0

def AUDIO_INT_WRITE_BUFFER_2_EMPTY : Nat := 1 <<< 1

def AUDIO_INT_READ_BUFFER_FULL : Nat := 1 <<< 2

def AUDIO_INT_MASK : Nat :=
  AUDIO_INT_WRITE_BUFFER_1_EMPTY ||| AUDIO_INT_WRITE_BUFFER_2_EMPTY |||
    AUDIO_INT_READ_BUFFER_FULL

/-! ## Kernel constants used by the driver -/

/-- Modelled from the spec: the number of the "unsupported" error, `ENODEV` of the
kernel's `errno-base.h`, which is not among the source files. -/
def ENODEV : Int := 19

/-- Modelled from the spec: the number of the "fault" error, `EFAULT` of the kernel's
`errno-base.h`, which is not among the source files. -/
def EFAULT : Int := 14

/-- Modelled from the spec: the number of the "busy" error, `EBUSY` of the kernel's
`errno-base.h`, which is not among the source files. -/
def EBUSY : Int := 16

/-- Modelled from the spec: the number of the "interrupted" condition of a wait that
a signal ends, `ERESTARTSYS` of the kernel's `errno.h`, which is not among the
source files. -/
def ERESTARTSYS : Int := 512

/-- Modelled from the spec: the type `irqreturn_t` of the kernel's `irqreturn.h`,
which is not among the source files: "not handled" and "handled". -/
inductive irqreturn_t
  | IRQ_NONE
  | IRQ_HANDLED
  deriving DecidableEq, Repr

/-! ## Machine integers -/

/-- Conversion to a 32-bit unsigned value (`size_t`, `uint32_t`, `unsigned long`). -/
def u32 (x : Int) : Nat := (x % 4294967296).toNat

/-- Conversion to a 32-bit signed value (`int`, `ssize_t`), two's complement. -/
def s32 (x : Int) : Int := (x + 2147483648) % 4294967296 - 2147483648

/-- The `~x` of a 32-bit word. -/
def not32 (x : Nat) : Nat := 4294967295 ^^^ x

/-! ## Data model -/

/-- The fields of `struct goldfish_audio` that the file operations and the
interrupt handler use.  `lock` and `wait` are the synchronisation objects and
carry no data; `buffer_virt` and `buffer_phys` are only used at attach time. -/
structure goldfish_audio where
  reg_base : Nat
  irq : Int
  write_buffer1 : Nat
  write_buffer2 : Nat
  read_buffer : Nat
  buffer_status : Nat
  read_supported : Nat
  deriving DecidableEq, Repr

/-- One externally visible step of the driver. -/
inductive Action
  /-- The call `writel(x, addr)`. -/
  | writel (x : Nat) (addr : Nat)
  /-- The call `readl(addr)` and the value it returned. -/
  | readl (addr : Nat) (x : Nat)
  /-- A blocking wait came back with return value `ret`; `status` is the cached
  `buffer_status` at that moment. -/
  | wait_return (ret : Int) (status : Nat)
  /-- The call `copy_from_user(dst, src, n)`; `fault` is true when it returned non-zero. -/
  | copy_from_user (dst : Nat) (src : Int) (n : Nat) (fault : Bool)
  /-- The call `copy_to_user(dst, src, n)`; `fault` is true when it returned non-zero. -/
  | copy_to_user (dst : Int) (src : Nat) (n : Nat) (fault : Bool)
  /-- The call `wake_up(&data->wait)`. -/
  | wake_up
  deriving DecidableEq, Repr

/-- What can happen while a caller is blocked. -/
inductive Event
  /-- The device raises its interrupt; `h` is what `AUDIO_INT_STATUS` reads. -/
  | irq (h : Nat)
  /-- A signal is delivered to the blocked thread. -/
  | signal
  deriving DecidableEq, Repr

/-- What a file operation leaves behind: its return value, the device
structure, the events not yet consumed and the actions it performed. -/
structure Out where
  ret : Int
  data : goldfish_audio
  events : List Event
  log : List Action
  deriving DecidableEq, Repr

/-- The macro `GOLDFISH_AUDIO_WRITE(data, addr, x)`. -/
def GOLDFISH_AUDIO_WRITE (data : goldfish_audio) (addr : Nat) (x : Nat) : Action :=
  Action.writel x (data.reg_base + addr)

/-- The macro `GOLDFISH_AUDIO_READ(data, addr)`, with the value `x` the device answers. -/
def GOLDFISH_AUDIO_READ (data : goldfish_audio) (addr : Nat) (x : Nat) : Action :=
  Action.readl (data.reg_base + addr) x

/-! ## The interrupt handler -/

/-- The handler `goldfish_audio_interrupt`; `h` is the value read from `AUDIO_INT_STATUS`.
Returns the handler's result, the device structure afterwards and the actions. -/
def goldfish_audio_interrupt (data : goldfish_audio) (h : Nat) :
    irqreturn_t × goldfish_audio × List Action :=
  let status := h &&& AUDIO_INT_MASK
  if status ≠ 0 then
    (irqreturn_t.IRQ_HANDLED, { data with buffer_status := status },
      [GOLDFISH_AUDIO_READ data AUDIO_INT_STATUS h, Action.wake_up])
  else
    (irqreturn_t.IRQ_NONE, data, [GOLDFISH_AUDIO_READ data AUDIO_INT_STATUS h])

/-! ## Blocking waits -/

/-- Modelled from the spec: the kernel macro `wait_event_interruptible(wq, condition)`
of `linux/wait.h`, which is not among the source files.  The waits are
"condition-based (wake-and-recheck)" and "a blocked read or write may be
interrupted by an external cancellation signal".  The condition is tested first
and the wait returns `0` at once when it holds.  Otherwise the caller sleeps:
an interrupt runs `goldfish_audio_interrupt` and the condition is tested again,
a signal ends the wait with `-ERESTARTSYS`.  `none` is a caller that is never
woken (the events are used up while the condition is false). -/
def wait_event_interruptible (condition : goldfish_audio → Bool) :
    goldfish_audio → List Event → Option (Int × goldfish_audio × List Event × List Action)
  | data, [] => if condition data then some (0, data, [], []) else none
  | data, e :: evs =>
    if condition data then some (0, data, e :: evs, [])
    else
      match e with
      | Event.signal => some (-ERESTARTSYS, data, evs, [])
      | Event.irq h =>
        let r := goldfish_audio_interrupt data h
        match wait_event_interruptible condition r.2.1 evs with
        | none => none
        | some (ret, data', evs', acts) => some (ret, data', evs', r.2.2 ++ acts)

/-! ## The write path -/

/-- The byte count of one chunk: `ssize_t copy = count; if (copy > WRITE_BUFFER_SIZE)
copy = WRITE_BUFFER_SIZE;`. -/
def write_copy (count : Nat) : Int :=
  if s32 count > WRITE_BUFFER_SIZE then WRITE_BUFFER_SIZE else s32 count

/-- The `while (count > 0)` loop of `goldfish_audio_write`.  `ufault src n` tells
whether `copy_from_user` of `n` bytes at user address `src` fails; `buf`,
`count` and `result` are the C variables of the same names; `log` holds the
actions performed so far. -/
def goldfish_audio_write_loop (ufault : Int → Nat → Bool) (data : goldfish_audio)
    (buf : Int) (count : Nat) (result : Int) (evs : List Event) (log : List Action) :
    Option Out :=
  if _h : count > 0 then
    let copy := write_copy count
    match wait_event_interruptible
        (fun d => d.buffer_status &&&
          (AUDIO_INT_WRITE_BUFFER_1_EMPTY ||| AUDIO_INT_WRITE_BUFFER_2_EMPTY) ≠ 0) data evs with
    | none => none
    | some (ret, data, evs, acts) =>
      let log := log ++ acts ++ [Action.wait_return ret data.buffer_status]
      let kbuf :=
        if data.buffer_status &&& AUDIO_INT_WRITE_BUFFER_1_EMPTY ≠ 0 then data.write_buffer1
        else data.write_buffer2
      if ufault buf (u32 copy) then
        some ⟨-EFAULT, data, evs, log ++ [Action.copy_from_user kbuf buf (u32 copy) true]⟩
      else
        let log := log ++ [Action.copy_from_user kbuf buf (u32 copy) false]
        if kbuf = data.write_buffer1 then
          let data := { data with buffer_status :=
            data.buffer_status &&& not32 AUDIO_INT_WRITE_BUFFER_1_EMPTY }
          goldfish_audio_write_loop ufault data (buf + copy) (u32 (count - copy))
            (s32 (result + copy)) evs
            (log ++ [GOLDFISH_AUDIO_WRITE data AUDIO_WRITE_BUFFER_1 (u32 copy)])
        else
          let data := { data with buffer_status :=
            data.buffer_status &&& not32 AUDIO_INT_WRITE_BUFFER_2_EMPTY }
          goldfish_audio_write_loop ufault data (buf + copy) (u32 (count - copy))
            (s32 (result + copy)) evs
            (log ++ [GOLDFISH_AUDIO_WRITE data AUDIO_WRITE_BUFFER_2 (u32 copy)])
  else
    some ⟨result, data, evs, log⟩
termination_by count
decreasing_by
  all_goals
    simp only [u32, write_copy, s32, WRITE_BUFFER_SIZE]
    split <;> omega

/-- The file operation `goldfish_audio_write(fp, buf, count, pos)` with
`data = fp->private_data`. -/
def goldfish_audio_write (ufault : Int → Nat → Bool) (data : goldfish_audio)
    (buf : Int) (count : Nat) (evs : List Event) : Option Out :=
  goldfish_audio_write_loop ufault data buf count 0 evs []

/-! ## The read path -/

/-- The `while (count > 0)` loop of `goldfish_audio_read`.  `ufault dst n` tells
whether `copy_to_user` of `n` bytes to user address `dst` fails; the last
argument lists the values the device answers to the successive reads of
`AUDIO_READ_BUFFER_AVAILABLE`.  `none` is a call that never returns: a wait
that is never woken, or a device that has no further answer. -/
def goldfish_audio_read_loop (ufault : Int → Nat → Bool) (data : goldfish_audio)
    (buf : Int) (count : Nat) (result : Int) (evs : List Event) (log : List Action) :
    List Nat → Option Out
  | [] => if count > 0 then none else some ⟨result, data, evs, log⟩
  | a :: avail =>
    if count > 0 then
      let length : Int := s32 (if count > READ_BUFFER_SIZE then READ_BUFFER_SIZE else count)
      let log := log ++ [GOLDFISH_AUDIO_WRITE data AUDIO_START_READ (u32 length)]
      match wait_event_interruptible
          (fun d => d.buffer_status &&& AUDIO_INT_READ_BUFFER_FULL ≠ 0) data evs with
      | none => none
      | some (ret, data, evs, acts) =>
        let log := log ++ acts ++ [Action.wait_return ret data.buffer_status]
        let length : Int := s32 a
        let log := log ++ [GOLDFISH_AUDIO_READ data AUDIO_READ_BUFFER_AVAILABLE a]
        if ufault buf (u32 length) then
          some ⟨-EFAULT, data, evs,
            log ++ [Action.copy_to_user buf data.read_buffer (u32 length) true]⟩
        else
          goldfish_audio_read_loop ufault data (buf + length) (u32 (count - length))
            (s32 (result + length)) evs
            (log ++ [Action.copy_to_user buf data.read_buffer (u32 length) false]) avail
    else some ⟨result, data, evs, log⟩

/-- The file operation `goldfish_audio_read(fp, buf, count, pos)` with
`data = fp->private_data`. -/
def goldfish_audio_read (ufault : Int → Nat → Bool) (data : goldfish_audio)
    (buf : Int) (count : Nat) (evs : List Event) (avail : List Nat) : Option Out :=
  if data.read_supported = 0 then
    some ⟨-ENODEV, data, evs, []⟩
  else
    goldfish_audio_read_loop ufault data buf count 0 evs [] avail

/-! ## Open and release -/

/-- A value of type `struct goldfish_audio *`: `NULL`, or the address of the one
structure that `goldfish_audio_probe` allocates. -/
inductive audio_ptr
  | NULL
  | dev
  deriving DecidableEq, Repr

/-- The file-scope variables of `audio.c`: the pointer `audio_data`, the structure
it points to when it is not `NULL`, and the counter `open_count`. -/
structure Driver where
  audio_data : audio_ptr
  dev : goldfish_audio
  open_count : Int
  deriving DecidableEq, Repr

/-- The field of `struct file` that the driver uses. -/
structure file where
  private_data : audio_ptr
  deriving DecidableEq, Repr

/-- Modelled from the spec: `atomic_inc_return` of the kernel's `asm/atomic.h`, which
is not among the source files: the "atomic open counter" is incremented and the
new value returned.  `atomic_t` holds an `int`. -/
def atomic_inc_return (v : Int) : Int := s32 (v + 1)

/-- Modelled from the spec: `atomic_dec` of the kernel's `asm/atomic.h`, which is not
among the source files: the counter is "decremented" (on open failure,
"rolled back"). -/
def atomic_dec (v : Int) : Int := s32 (v - 1)

/-- The file operation `goldfish_audio_open(ip, fp)`: return value, file-scope state
and file afterwards, and the actions. -/
def goldfish_audio_open (st : Driver) (fp : file) : Int × Driver × file × List Action :=
  match st.audio_data with
  | audio_ptr.NULL => (-ENODEV, st, fp, [])
  | audio_ptr.dev =>
    let c := atomic_inc_return st.open_count
    if c = 1 then
      let dev := { st.dev with buffer_status :=
        AUDIO_INT_WRITE_BUFFER_1_EMPTY ||| AUDIO_INT_WRITE_BUFFER_2_EMPTY }
      (0, { st with dev := dev, open_count := c }, { fp with private_data := st.audio_data },
        [GOLDFISH_AUDIO_WRITE dev AUDIO_INT_ENABLE AUDIO_INT_MASK])
    else
      (-EBUSY, { st with open_count := atomic_dec c }, fp, [])

/-- The file operation `goldfish_audio_release(ip, fp)`.  `none` is the dereference
of a `NULL` `audio_data`. -/
def goldfish_audio_release (st : Driver) (_fp : file) : Option (Int × Driver × List Action) :=
  let c := atomic_dec st.open_count
  match st.audio_data with
  | audio_ptr.NULL => none
  | audio_ptr.dev =>
    some (0, { st with open_count := c }, [GOLDFISH_AUDIO_WRITE st.dev AUDIO_INT_ENABLE 0])

/-! ## Sequences of opens and releases -/

/-- A call of one of the two lifecycle file operations. -/
inductive Call
  | do_open
  | do_release
  deriving DecidableEq, Repr

/-- One call of a sequence: which it was, what it returned and the file-scope
state after it. -/
structure Step where
  call : Call
  ret : Int
  after : Driver
  deriving DecidableEq, Repr

/-- The calls made one after the other from state `st`.  A release that
dereferences `NULL` ends the sequence. -/
def run_calls (st : Driver) : List Call → List Step
  | [] => []
  | Call.do_open :: cs =>
    let r := goldfish_audio_open st ⟨audio_ptr.NULL⟩
    ⟨Call.do_open, r.1, r.2.1⟩ :: run_calls r.2.1 cs
  | Call.do_release :: cs =>
    match goldfish_audio_release st ⟨audio_ptr.dev⟩ with
    | none => []
    | some r => ⟨Call.do_release, r.1, r.2.1⟩ :: run_calls r.2.1 cs

/-- The file-scope state after `goldfish_audio_probe` has attached the device `d`
and before any open. -/
def closed_attached (d : goldfish_audio) : Driver :=
  { audio_data := audio_ptr.dev, dev := d, open_count := 0 }

/-! ## Reading a log -/

/-- The byte count of a buffer command: a `writel` to `AUDIO_WRITE_BUFFER_1` or
`AUDIO_WRITE_BUFFER_2` of the register block at `base`. -/
def command_count (base : Nat) : Action → Option Nat
  | Action.writel x addr =>
    if addr = base + AUDIO_WRITE_BUFFER_1 ∨ addr = base + AUDIO_WRITE_BUFFER_2 then some x
    else none
  | _ => none

/-- The byte counts of the buffer commands of a log, in order. -/
def write_commands (base : Nat) (log : List Action) : List Nat :=
  log.filterMap (command_count base)

/-- The user range of a `copy_from_user` that did not fault. -/
def copied_chunk : Action → Option (Int × Nat)
  | Action.copy_from_user _ src n false => some (src, n)
  | _ => none

/-- The `n` bytes of user memory `umem` that start at address `src`. -/
def user_bytes (umem : Int → Nat) (src : Int) (n : Nat) : List Nat :=
  (List.range n).map (fun (i : Nat) => umem (src + (i : Int)))

/-- The lengths of the chunks copied from user memory, in order. -/
def copied_lengths (log : List Action) : List Nat :=
  (log.filterMap copied_chunk).map Prod.snd

/-- The bytes copied from user memory into the write buffers, chunk after chunk. -/
def copied_bytes (umem : Int → Nat) (log : List Action) : List Nat :=
  ((log.filterMap copied_chunk).map (fun p => user_bytes umem p.1 p.2)).flatten

/-- The action is not a copy across the user boundary that faulted. -/
def copy_ok : Action → Bool
  | Action.copy_from_user _ _ _ true => false
  | Action.copy_to_user _ _ _ true => false
  | _ => true

/-- No copy across the user boundary faulted. -/
def no_copy_fault (log : List Action) : Bool := log.all copy_ok

/-- The action is not the return of a wait, or the wait came back with one of
the bits of `mask` set in the cached status. -/
def wait_satisfied (mask : Nat) : Action → Bool
  | Action.wait_return _ s => s &&& mask ≠ 0
  | _ => true

/-- Every wait of the log came back with one of the bits of `mask` set. -/
def waits_satisfied (mask : Nat) (log : List Action) : Bool := log.all (wait_satisfied mask)

/-- The actions of the interrupt handler: a register read or a wake-up. -/
def handler_action : Action → Prop
  | Action.readl _ _ => True
  | Action.wake_up => True
  | _ => False

/-- The length requested by a read command: a `writel` to `AUDIO_START_READ` of
the register block at `base`. -/
def start_read_length (base : Nat) : Action → Option Nat
  | Action.writel x addr => if addr = base + AUDIO_START_READ then some x else none
  | _ => none

/-- The lengths requested by the `AUDIO_START_READ` commands of a log, in order. -/
def read_requests (base : Nat) (log : List Action) : List Nat :=
  log.filterMap (start_read_length base)

/-- The length of a `copy_to_user`. -/
def to_user_length : Action → Option Nat
  | Action.copy_to_user _ _ n _ => some n
  | _ => none

/-- The lengths of the chunks copied to the caller, in order. -/
def read_copies (log : List Action) : List Nat :=
  log.filterMap to_user_length

/-! ## Terms of the properties -/

/-- The byte counts the chunking rule gives for `n` bytes: `n / 16384` full
buffers, then the remainder when there is one. -/
def chunk_sizes (n : Nat) : List Nat :=
  List.replicate (n / WRITE_BUFFER_SIZE) WRITE_BUFFER_SIZE ++
    (if n % WRITE_BUFFER_SIZE ≠ 0 then [n % WRITE_BUFFER_SIZE] else [])

/-- Every event is an interrupt that reports a write buffer empty. -/
def write_interrupts (evs : List Event) : Prop :=
  ∀ e ∈ evs, ∃ h, e = Event.irq h ∧ h &&& 3 ≠ 0

/-- The device never answers `AUDIO_READ_BUFFER_AVAILABLE` with more than the
length just requested, which is the smaller of the count still wanted and
`READ_BUFFER_SIZE`.  Answers that are left when nothing is wanted any more are
never read. -/
def device_honours : Nat → List Nat → Prop
  | _, [] => True
  | count, a :: avail =>
    count = 0 ∨ (a ≤ min count READ_BUFFER_SIZE ∧ device_honours (count - a) avail)

/-- What a call adds to the number of successful opens not yet released. -/
def holders_change (e : Step) : Int :=
  match e.call with
  | Call.do_open => if e.ret = 0 then 1 else 0
  | Call.do_release => -1

/-- The number of successful opens of a history that no release has followed up:
successful opens minus releases. -/
def unreleased : List Step → Int
  | [] => 0
  | e :: t => holders_change e + unreleased t

/-- Release is only called by a holder: every release of the history comes when
some successful open is still unreleased. -/
def disciplined (t : List Step) : Bool :=
  (List.range t.length).all fun k =>
    match t[k]? with
    | some e => if e.call = Call.do_release then decide (0 < unreleased (t.take k)) else true
    | none => true

/-! ## Sample inputs and results -/

/-- A device structure as `goldfish_audio_probe` lays it out: the three buffers
follow one another in the combined buffer; the cached status is as given. -/
def sample_dev (status : Nat) : goldfish_audio :=
  { reg_base := 4278206464, irq := 15,
    write_buffer1 := 3221225472, write_buffer2 := 3221225472 + WRITE_BUFFER_SIZE,
    read_buffer := 3221225472 + 2 * WRITE_BUFFER_SIZE,
    buffer_status := status, read_supported := 1 }

/-- The result of writing 20000 bytes from user address 0 on `sample_dev 3`
(both write buffers empty) when no copy faults. -/
def write_20000_out : Out :=
  { ret := 20000, data := sample_dev 0, events := [],
    log := [Action.wait_return 0 3,
      Action.copy_from_user 3221225472 0 16384 false,
      Action.writel 16384 (4278206464 + 0x10),
      Action.wait_return 0 2,
      Action.copy_from_user (3221225472 + 16384) 16384 3616 false,
      Action.writel 3616 (4278206464 + 0x14)] }

/-- The result of reading 20000 bytes on `sample_dev 0` when one interrupt reports
the read buffer full and the device delivers 10000 bytes twice. -/
def read_20000_out : Out :=
  { ret := 20000, data := sample_dev 4, events := [],
    log := [Action.writel 16384 (4278206464 + 0x20),
      Action.readl 4278206464 4, Action.wake_up,
      Action.wait_return 0 4,
      Action.readl (4278206464 + 0x24) 10000,
      Action.copy_to_user 0 (3221225472 + 32768) 10000 false,
      Action.writel 10000 (4278206464 + 0x20),
      Action.wait_return 0 4,
      Action.readl (4278206464 + 0x24) 10000,
      Action.copy_to_user 10000 (3221225472 + 32768) 10000 false] }

/-- The result of reading 40000 bytes on `sample_dev 0` when the device answers
the first request, of 16384 bytes, with 40000. -/
def read_40000_out : Out :=
  { ret := 40000, data := sample_dev 4, events := [],
    log := [Action.writel 16384 (4278206464 + 0x20),
      Action.readl 4278206464 4, Action.wake_up,
      Action.wait_return 0 4,
      Action.readl (4278206464 + 0x24) 40000,
      Action.copy_to_user 0 (3221225472 + 32768) 40000 false] }

/-! ## The TTY driver: `drivers/char/goldfish_tty.c` -/

def GOLDFISH_TTY_PUT_CHAR : Nat := 0x00

def GOLDFISH_TTY_BYTES_READY : Nat := 0x04

def GOLDFISH_TTY_CMD : Nat := 0x08

def GOLDFISH_TTY_DATA_PTR : Nat := 0x10

def GOLDFISH_TTY_DATA_LEN : Nat := 0x14

def GOLDFISH_TTY_CMD_INT_DISABLE : Nat := 0

def GOLDFISH_TTY_CMD_INT_ENABLE : Nat := 1

def GOLDFISH_TTY_CMD_WRITE_BUFFER : Nat := 2

def GOLDFISH_TTY_CMD_READ_BUFFER : Nat := 3

/-- The file-scope variable `goldfish_tty_line_count`, a `uint32_t` that is never
assigned after its initialisation. -/
def goldfish_tty_line_count : Nat := 8

/-- The fields of `struct goldfish_tty` that open, close and the console set-up
use.  `tty` is the pointer to the session that owns the line, `none` for
`NULL`.  `lock` carries no data and of `console` only the index is used, which
the console set-up receives as its argument. -/
structure goldfish_tty where
  base : Nat
  irq : Nat
  opencount : Int
  tty : Option Nat
  deriving DecidableEq, Repr

/-- A session: a `struct tty_struct` as the driver sees it, that is its address,
which is not `NULL`, and its field `index`, the line it is for. -/
structure tty_struct where
  addr : Nat
  index : Nat
  deriving DecidableEq, Repr

/-- The array that `goldfish_tty_create_driver` allocates for `goldfish_ttys`:
`kzalloc(sizeof(*goldfish_ttys) * goldfish_tty_line_count, GFP_KERNEL)`, that is
`goldfish_tty_line_count` entries, all zero. -/
def goldfish_tty_create_driver : List goldfish_tty :=
  List.replicate goldfish_tty_line_count { base := 0, irq := 0, opencount := 0, tty := none }

/-- The body of `goldfish_tty_open` on the line `*qtty`, between `mutex_lock` and
`mutex_unlock`; `tty` is the address of the calling session.  Returns `ret`,
the line afterwards and the actions. -/
def goldfish_tty_open_qtty (qtty : goldfish_tty) (tty : Nat) :
    Int × goldfish_tty × List Action :=
  if qtty.tty = none ∨ qtty.tty = some tty then
    let old := qtty.opencount
    let qtty := { qtty with opencount := s32 (old + 1) }
    if old = 0 then
      (0, { qtty with tty := some tty },
        [Action.writel GOLDFISH_TTY_CMD_INT_ENABLE (qtty.base + GOLDFISH_TTY_CMD)])
    else (0, qtty, [])
  else (-EBUSY, qtty, [])

/-- The function `goldfish_tty_open(tty, filp)` on the array `goldfish_ttys`, with
`qtty = &goldfish_ttys[tty->index]`.  `none` is an index outside the array. -/
def goldfish_tty_open (goldfish_ttys : List goldfish_tty) (tty : tty_struct) :
    Option (Int × List goldfish_tty × List Action) :=
  match goldfish_ttys[tty.index]? with
  | none => none
  | some qtty =>
    let r := goldfish_tty_open_qtty qtty tty.addr
    some (r.1, goldfish_ttys.set tty.index r.2.1, r.2.2)

/-- The body of `goldfish_tty_close` on the line `*qtty`, between `mutex_lock` and
`mutex_unlock`; `tty` is the address of the calling session.  Returns the line
afterwards and the actions. -/
def goldfish_tty_close_qtty (qtty : goldfish_tty) (tty : Nat) : goldfish_tty × List Action :=
  if qtty.tty = some tty then
    let qtty := { qtty with opencount := s32 (qtty.opencount - 1) }
    if qtty.opencount = 0 then
      ({ qtty with tty := none },
        [Action.writel GOLDFISH_TTY_CMD_INT_DISABLE (qtty.base + GOLDFISH_TTY_CMD)])
    else (qtty, [])
  else (qtty, [])

/-- The function `goldfish_tty_close(tty, filp)` on the array `goldfish_ttys`, with
`qtty = &goldfish_ttys[tty->index]`.  `none` is an index outside the array. -/
def goldfish_tty_close (goldfish_ttys : List goldfish_tty) (tty : tty_struct) :
    Option (List goldfish_tty × List Action) :=
  match goldfish_ttys[tty.index]? with
  | none => none
  | some qtty =>
    let r := goldfish_tty_close_qtty qtty tty.addr
    some (goldfish_ttys.set tty.index r.1, r.2)

/-- The function `goldfish_tty_console_setup(co, options)` on the array
`goldfish_ttys`; `index` is `co->index`.  `none` is a read of
`goldfish_ttys[index]` outside the array. -/
def goldfish_tty_console_setup (goldfish_ttys : List goldfish_tty) (index : Int) :
    Option Int :=
  if u32 index > goldfish_tty_line_count then some (-ENODEV)
  else if index < 0 then none
  else
    match goldfish_ttys[index.toNat]? with
    | none => none
    | some qtty => if qtty.base = 0 then some (-ENODEV) else some 0

/-! ## Sequences of TTY opens and closes -/

/-- A call of `goldfish_tty_open` or `goldfish_tty_close` by a session. -/
inductive TtyCall
  | do_open (tty : tty_struct)
  | do_close (tty : tty_struct)
  deriving DecidableEq, Repr

/-- The session that makes the call. -/
def TtyCall.session : TtyCall → tty_struct
  | TtyCall.do_open tty => tty
  | TtyCall.do_close tty => tty

/-- One call of a sequence: which it was, what it returned (0 for a close, which
returns nothing), its actions, and the array `goldfish_ttys` before and after. -/
structure TtyStep where
  call : TtyCall
  ret : Int
  log : List Action
  before : List goldfish_tty
  after : List goldfish_tty
  deriving DecidableEq, Repr

/-- The calls made one after the other on the array `goldfish_ttys`.  A call for
an index outside the array ends the sequence. -/
def run_tty_calls (goldfish_ttys : List goldfish_tty) : List TtyCall → List TtyStep
  | [] => []
  | TtyCall.do_open tty :: cs =>
    match goldfish_tty_open goldfish_ttys tty with
    | none => []
    | some r =>
      ⟨TtyCall.do_open tty, r.1, r.2.2, goldfish_ttys, r.2.1⟩ :: run_tty_calls r.2.1 cs
  | TtyCall.do_close tty :: cs =>
    match goldfish_tty_close goldfish_ttys tty with
    | none => []
    | some r =>
      ⟨TtyCall.do_close tty, 0, r.2, goldfish_ttys, r.1⟩ :: run_tty_calls r.1 cs

/-- The command of a `writel` to the register `GOLDFISH_TTY_CMD` of the register
block at `base`. -/
def tty_command (base : Nat) : Action → Option Nat
  | Action.writel x addr => if addr = base + GOLDFISH_TTY_CMD then some x else none
  | _ => none

/-- The last command that a call wrote to `GOLDFISH_TTY_CMD` of line `line`, if it
was a call for that line and wrote one. -/
def step_tty_command (line : Nat) (s : TtyStep) : Option Nat :=
  if s.call.session.index = line then
    match s.before[line]? with
    | some qtty => (s.log.filterMap (tty_command qtty.base)).getLast?
    | none => none
  else none

/-- The last command written to `GOLDFISH_TTY_CMD` of line `line` by the calls of
a history; `last` is the one written before the history, if any. -/
def last_tty_command (line : Nat) : Option Nat → List TtyStep → Option Nat
  | last, [] => last
  | last, s :: t =>
    match step_tty_command line s with
    | some x => last_tty_command line (some x) t
    | none => last_tty_command line last t

/-- A session for line 0. -/
def sample_tty_a : tty_struct := { addr := 3238002688, index := 0 }

/-- Another session for line 0. -/
def sample_tty_b : tty_struct := { addr := 3238006784, index := 0 }

/-- A session for line 1. -/
def sample_tty_c : tty_struct := { addr := 3238010880, index := 1 }

/-- The array `goldfish_ttys` after `goldfish_tty_probe` has set the register base
of lines 0 and 1. -/
def sample_ttys : List goldfish_tty :=
  (goldfish_tty_create_driver.set 0 { base := 4278198272, irq := 4, opencount := 0, tty := none }).set
    1 { base := 4278251520, irq := 11, opencount := 0, tty := none }

/-- What holds of a line between calls: `opencount` is not negative, it is zero
exactly when the line has no owner, the last command written to
`GOLDFISH_TTY_CMD` was `GOLDFISH_TTY_CMD_INT_ENABLE` exactly when it is
positive, and `n` further increments do not overflow it. -/
def tty_line_ok (qtty : goldfish_tty) (last : Option Nat) (n : Nat) : Prop :=
  0 ≤ qtty.opencount ∧ (qtty.opencount = 0 ↔ qtty.tty = none) ∧
    (last = some GOLDFISH_TTY_CMD_INT_ENABLE ↔ 0 < qtty.opencount) ∧
    qtty.opencount + n < 2147483648

/-- The last command after a call's actions `log` on a line with register base
`base`, when `last` was the last command before. -/
def next_tty_command (base : Nat) (last : Option Nat) (log : List Action) : Option Nat :=
  match (log.filterMap (tty_command base)).getLast? with
  | some x => some x
  | none => last

/-- A sequence of calls on `sample_ttys`: session a opens line 0 twice, session b is
refused and its close changes nothing, a closes once, c opens line 1, a closes
again and gives up line 0, b opens it. -/
def sample_tty_calls : List TtyCall :=
  [TtyCall.do_open sample_tty_a, TtyCall.do_open sample_tty_a, TtyCall.do_open sample_tty_b,
    TtyCall.do_close sample_tty_b, TtyCall.do_close sample_tty_a, TtyCall.do_open sample_tty_c,
    TtyCall.do_close sample_tty_a, TtyCall.do_open sample_tty_b]

/-- The buffer pointers as `goldfish_audio_probe` sets them from the address
`buffer_virt` of the combined buffer: `write_buffer1 = buffer_virt`,
`write_buffer2 = buffer_virt + WRITE_BUFFER_SIZE`,
`read_buffer = buffer_virt + 2 * WRITE_BUFFER_SIZE`. -/
def probe_buffers (data : goldfish_audio) (buffer_virt : Nat) : goldfish_audio :=
  { data with
    write_buffer1 := buffer_virt,
    write_buffer2 := buffer_virt + WRITE_BUFFER_SIZE,
    read_buffer := buffer_virt + 2 * WRITE_BUFFER_SIZE }

/-- The result of reading 32768 bytes on `sample_dev 0` when the device raises one
interrupt, for the first chunk, and none after it. -/
def read_32768_out : Out :=
  { ret := 32768, data := sample_dev 4, events := [],
    log := [Action.writel 16384 (4278206464 + 0x20),
      Action.readl 4278206464 4, Action.wake_up,
      Action.wait_return 0 4,
      Action.readl (4278206464 + 0x24) 16384,
      Action.copy_to_user 0 (3221225472 + 32768) 16384 false,
      Action.writel 16384 (4278206464 + 0x20),
      Action.wait_return 0 4,
      Action.readl (4278206464 + 0x24) 16384,
      Action.copy_to_user 16384 (3221225472 + 32768) 16384 false] }

/-! ## One chunk of the write path -/

/-- The C variables of `goldfish_audio_write` at the top of its `while` loop,
with the events still to come and the actions performed so far. -/
structure WriteState where
  data : goldfish_audio
  buf : Int
  count : Nat
  result : Int
  events : List Event
  log : List Action
  deriving DecidableEq, Repr

/-- How one pass through the body of the `while` loop ends. -/
inductive ChunkResult
  /-- The wait is never woken. -/
  | blocked
  /-- The function `copy_from_user` failed: `result = -EFAULT; break;`, and this is
  what the call returns. -/
  | fault (out : Out)
  /-- The end of the body is reached with these values of the variables. -/
  | next (s : WriteState)
  deriving DecidableEq, Repr

/-- The interrupts taken, one after the other, at a place where the caller runs
with interrupts enabled; each number is what `AUDIO_INT_STATUS` reads.  Returns
the device structure afterwards and the actions of the handler. -/
def take_interrupts (data : goldfish_audio) : List Nat → goldfish_audio × List Action
  | [] => (data, [])
  | h :: hs =>
    let r := goldfish_audio_interrupt data h
    let r' := take_interrupts r.2.1 hs
    (r'.1, r.2.2 ++ r'.2)

/-- The body of the `while` loop of `goldfish_audio_write`, lines 149 to 186 of
`audio.c`, run once.  Besides the interrupts taken during the wait, the body
can be interrupted where it runs outside the spin lock: `irqs_before_test` are
the interrupts taken between the return of the wait and the test of
`buffer_status` that picks `kbuf`, `irqs_before_lock` those taken between that
test and `spin_lock_irqsave`, that is during the copy from user memory.  With
both lists empty this is the body as `goldfish_audio_write_loop` runs it. -/
def goldfish_audio_write_chunk (ufault : Int → Nat → Bool) (s : WriteState)
    (irqs_before_test irqs_before_lock : List Nat) : ChunkResult :=
  let copy := write_copy s.count
  match wait_event_interruptible
      (fun d => d.buffer_status &&&
        (AUDIO_INT_WRITE_BUFFER_1_EMPTY ||| AUDIO_INT_WRITE_BUFFER_2_EMPTY) ≠ 0)
      s.data s.events with
  | none => ChunkResult.blocked
  | some (ret, data, evs, acts) =>
    let log := s.log ++ acts ++ [Action.wait_return ret data.buffer_status]
    let w1 := take_interrupts data irqs_before_test
    let data := w1.1
    let log := log ++ w1.2
    let kbuf :=
      if data.buffer_status &&& AUDIO_INT_WRITE_BUFFER_1_EMPTY ≠ 0 then data.write_buffer1
      else data.write_buffer2
    if ufault s.buf (u32 copy) then
      ChunkResult.fault
        ⟨-EFAULT, data, evs, log ++ [Action.copy_from_user kbuf s.buf (u32 copy) true]⟩
    else
      let log := log ++ [Action.copy_from_user kbuf s.buf (u32 copy) false]
      let w2 := take_interrupts data irqs_before_lock
      let data := w2.1
      let log := log ++ w2.2
      if kbuf = data.write_buffer1 then
        let data := { data with buffer_status :=
          data.buffer_status &&& not32 AUDIO_INT_WRITE_BUFFER_1_EMPTY }
        ChunkResult.next
          ⟨data, s.buf + copy, u32 (s.count - copy), s32 (s.result + copy), evs,
            log ++ [GOLDFISH_AUDIO_WRITE data AUDIO_WRITE_BUFFER_1 (u32 copy)]⟩
      else
        let data := { data with buffer_status :=
          data.buffer_status &&& not32 AUDIO_INT_WRITE_BUFFER_2_EMPTY }
        ChunkResult.next
          ⟨data, s.buf + copy, u32 (s.count - copy), s32 (s.result + copy), evs,
            log ++ [GOLDFISH_AUDIO_WRITE data AUDIO_WRITE_BUFFER_2 (u32 copy)]⟩

/-- The `while` loop of `goldfish_audio_write` from state `s`, as
`goldfish_audio_write_loop` runs it. -/
def write_loop_from (ufault : Int → Nat → Bool) (s : WriteState) : Option Out :=
  goldfish_audio_write_loop ufault s.data s.buf s.count s.result s.events s.log

/-- The state at the top of the loop for a write of 100 bytes from user address 0
on `sample_dev 2` (only write buffer 2 empty), with no event pending. -/
def sample_write_state : WriteState :=
  { data := sample_dev 2, buf := 0, count := 100, result := 0, events := [], log := [] }

/-- The state after the one chunk of that write: the 100 bytes went to write
buffer 2, its flag is cleared and the command for buffer 2 is the last action. -/
def sample_write_next : WriteState :=
  { data := sample_dev 0, buf := 100, count := 0, result := 100, events := [],
    log := [Action.wait_return 0 2,
      Action.copy_from_user (3221225472 + 16384) 0 100 false,
      Action.writel 100 (4278206464 + 0x14)] }

/-- The state after the same chunk when the device reports both write buffers
empty (status 3) before the test of `buffer_status`, and all three flags
(status 7) during the copy: the bytes go to write buffer 1, and only bit 0 of
the status found under the lock is cleared. -/
def sample_write_next_interrupted : WriteState :=
  { data := sample_dev 6, buf := 100, count := 0, result := 100, events := [],
    log := [Action.wait_return 0 2,
      Action.readl (4278206464 + 0x00) 3, Action.wake_up,
      Action.copy_from_user 3221225472 0 100 false,
      Action.readl (4278206464 + 0x00) 7, Action.wake_up,
      Action.writel 100 (4278206464 + 0x10)] }

/-! ## Machine integers: lemmas -/

theorem s32_wraps (x : Int) : ∃ q : Int, s32 x = x + 4294967296 * q :=
  ⟨-((x + 2147483648) / 4294967296), by simp only [s32]; omega⟩

theorem u32_wraps (x : Int) : ∃ q : Int, (u32 x : Int) = x + 4294967296 * q :=
  ⟨-(x / 4294967296), by simp only [u32]; omega⟩

theorem s32_shift (x q : Int) : s32 (x + 4294967296 * q) = s32 x := by
  simp only [s32]
  omega

theorem s32_range (x : Int) : -2147483648 ≤ s32 x ∧ s32 x < 2147483648 := by
  simp only [s32]; omega

theorem s32_of_range (x : Int) (h1 : -2147483648 ≤ x) (h2 : x < 2147483648) : s32 x = x := by
  simp only [s32]; omega

theorem s32_idem (x : Int) : s32 (s32 x) = s32 x :=
  s32_of_range _ (s32_range x).1 (s32_range x).2

theorem write_copy_small (count : Nat) (h : count < 2147483648) :
    write_copy count = ((min count 16384 : Nat) : Int) ∧
      u32 ((min count 16384 : Nat) : Int) = min count 16384 ∧
      u32 ((count : Int) - ((min count 16384 : Nat) : Int)) = count - min count 16384 := by
  simp only [write_copy, s32, u32, WRITE_BUFFER_SIZE]
  refine ⟨?_, ?_, ?_⟩
  · split <;> omega
  · omega
  · omega

theorem read_step_result (result : Int) (count a : Nat) :
    s32 (s32 (result + s32 (a : Int)) + (u32 ((count : Int) - s32 (a : Int)) : Int))
      = s32 (result + count) := by
  obtain ⟨q2, h2⟩ := s32_wraps (result + s32 (a : Int))
  obtain ⟨q3, h3⟩ := u32_wraps ((count : Int) - s32 (a : Int))
  have : s32 (result + s32 (a : Int)) + (u32 ((count : Int) - s32 (a : Int)) : Int)
      = (result + count) + 4294967296 * (q2 + q3) := by
    rw [h2, h3]; ring
  rw [this, s32_shift]

theorem and_seven_three (h : Nat) : (h &&& 7) &&& 3 = h &&& 3 := by
  have h73 : (7 : Nat) &&& 3 = 3 := by decide
  rw [Nat.land_assoc, h73]

/-! ## Chunks and logs: lemmas -/

theorem chunk_sizes_zero : chunk_sizes 0 = [] := by
  simp [chunk_sizes]

theorem chunk_sizes_big (n : Nat) (h : 16384 < n) :
    chunk_sizes n = 16384 :: chunk_sizes (n - 16384) := by
  have h1 : n / 16384 = (n - 16384) / 16384 + 1 := by omega
  have h2 : n % 16384 = (n - 16384) % 16384 := by omega
  unfold chunk_sizes WRITE_BUFFER_SIZE
  rw [h1, h2, List.replicate_succ, List.cons_append]

theorem chunk_sizes_small (n : Nat) (h0 : 0 < n) (h : n ≤ 16384) :
    chunk_sizes n = [n] := by
  simp only [chunk_sizes, WRITE_BUFFER_SIZE]
  rcases Nat.lt_or_eq_of_le h with hlt | heq
  · have h1 : n / 16384 = 0 := by omega
    have h2 : n % 16384 = n := by omega
    rw [h1, h2]
    simp
    omega
  · subst heq
    simp

theorem chunk_sizes_step (count : Nat) (h : 0 < count) :
    chunk_sizes count = min count 16384 :: chunk_sizes (count - min count 16384) := by
  by_cases hb : 16384 < count
  · rw [chunk_sizes_big count hb, Nat.min_eq_right (Nat.le_of_lt hb)]
  · have hle : count ≤ 16384 := Nat.le_of_not_lt hb
    rw [chunk_sizes_small count h hle, Nat.min_eq_left hle, Nat.sub_self, chunk_sizes_zero]

theorem user_bytes_append (umem : Int → Nat) (src : Int) (a b : Nat) :
    user_bytes umem src a ++ user_bytes umem (src + a) b = user_bytes umem src (a + b) := by
  simp only [user_bytes, List.range_add, List.map_append, List.map_map]
  congr 1
  apply List.map_congr_left
  intro i _
  simp [Function.comp, add_assoc]

theorem wait_event_interruptible_frame (condition : goldfish_audio → Bool) (evs : List Event) :
    ∀ (data : goldfish_audio) (ret : Int) (data' : goldfish_audio) (evs' : List Event)
      (acts : List Action),
      wait_event_interruptible condition data evs = some (ret, data', evs', acts) →
      data' = { data with buffer_status := data'.buffer_status } ∧
        ∀ a ∈ acts, handler_action a := by
  induction evs with
  | nil =>
    intro data ret data' evs' acts h
    simp only [wait_event_interruptible] at h
    split at h
    · simp only [Option.some.injEq, Prod.mk.injEq] at h
      obtain ⟨-, rfl, -, rfl⟩ := h
      simp
    · simp at h
  | cons e evs ih =>
    intro data ret data' evs' acts h
    simp only [wait_event_interruptible] at h
    split at h
    · simp only [Option.some.injEq, Prod.mk.injEq] at h
      obtain ⟨-, rfl, -, rfl⟩ := h
      simp
    · cases e with
      | signal =>
        simp only [Option.some.injEq, Prod.mk.injEq] at h
        obtain ⟨-, rfl, -, rfl⟩ := h
        simp
      | irq hw =>
        simp only at h
        split at h
        · simp at h
        · rename_i ret1 data1 evs1 acts1 heq
          simp only [Option.some.injEq, Prod.mk.injEq] at h
          obtain ⟨-, rfl, -, rfl⟩ := h
          obtain ⟨h1, h2⟩ := ih _ _ _ _ _ heq
          constructor
          · rw [h1]
            simp only [goldfish_audio_interrupt]
            split <;> rfl
          · intro a ha
            rcases List.mem_append.mp ha with ha | ha
            · simp only [goldfish_audio_interrupt] at ha
              split at ha <;> simp [GOLDFISH_AUDIO_READ] at ha <;>
                rcases ha with rfl | rfl <;> simp [handler_action]
            · exact h2 a ha

theorem handler_actions_silent (base : Nat) (acts : List Action)
    (h : ∀ a ∈ acts, handler_action a) :
    acts.filterMap (command_count base) = [] ∧ acts.filterMap copied_chunk = [] ∧
      ∀ dst src n f, Action.copy_from_user dst src n f ∉ acts := by
  refine ⟨?_, ?_, ?_⟩
  · rw [List.filterMap_eq_nil_iff]
    intro a ha
    have := h a ha
    cases a <;> simp_all [handler_action, command_count]
  · rw [List.filterMap_eq_nil_iff]
    intro a ha
    have := h a ha
    cases a <;> simp_all [handler_action, copied_chunk]
  · intro dst src n f hmem
    exact h _ hmem

theorem handler_actions_filter {α : Type} (f : Action → Option α) (acts : List Action)
    (h : ∀ a ∈ acts, handler_action a) (h1 : ∀ addr x, f (Action.readl addr x) = none)
    (h2 : f Action.wake_up = none) : acts.filterMap f = [] := by
  rw [List.filterMap_eq_nil_iff]
  intro a ha
  have := h a ha
  cases a <;> simp_all [handler_action]

theorem handler_actions_pass (mask : Nat) (acts : List Action)
    (h : ∀ a ∈ acts, handler_action a) :
    acts.all (wait_satisfied mask) = true ∧ acts.all copy_ok = true := by
  simp only [List.all_eq_true]
  constructor <;> intro a ha <;> have := h a ha <;>
    cases a <;> simp_all [handler_action, wait_satisfied, copy_ok]

theorem write_log_step (umem : Int → Nat) (base : Nat) (log acts : List Action)
    (hacts : ∀ a ∈ acts, handler_action a) (ret : Int) (s kbuf : Nat) (buf : Int) (c off : Nat)
    (hoff : off = AUDIO_WRITE_BUFFER_1 ∨ off = AUDIO_WRITE_BUFFER_2) :
    write_commands base (log ++ acts ++ [Action.wait_return ret s] ++
        [Action.copy_from_user kbuf buf c false] ++ [Action.writel c (base + off)])
      = write_commands base log ++ [c] ∧
    copied_lengths (log ++ acts ++ [Action.wait_return ret s] ++
        [Action.copy_from_user kbuf buf c false] ++ [Action.writel c (base + off)])
      = copied_lengths log ++ [c] ∧
    copied_bytes umem (log ++ acts ++ [Action.wait_return ret s] ++
        [Action.copy_from_user kbuf buf c false] ++ [Action.writel c (base + off)])
      = copied_bytes umem log ++ user_bytes umem buf c := by
  obtain ⟨h1, h2, -⟩ := handler_actions_silent base acts hacts
  refine ⟨?_, ?_, ?_⟩
  · simp only [write_commands, List.filterMap_append, h1, List.append_nil]
    rcases hoff with rfl | rfl <;> simp [command_count]
  · simp [copied_lengths, List.filterMap_append, h2, copied_chunk]
  · simp [copied_bytes, List.filterMap_append, h2, copied_chunk]

/-! ## The write loop -/

theorem write_loop_spec (ufault : Int → Nat → Bool) (umem : Int → Nat) :
    ∀ (count : Nat) (data : goldfish_audio) (buf result : Int) (evs : List Event)
      (log : List Action) (out : Out),
      count < 2147483648 → 0 ≤ result → result + count < 2147483648 →
      goldfish_audio_write_loop ufault data buf count result evs log = some out →
      no_copy_fault out.log = true →
      write_commands data.reg_base out.log
          = write_commands data.reg_base log ++ chunk_sizes count ∧
        copied_lengths out.log = copied_lengths log ++ chunk_sizes count ∧
        copied_bytes umem out.log = copied_bytes umem log ++ user_bytes umem buf count ∧
        out.ret = result + count := by
  intro count
  induction count using Nat.strong_induction_on with
  | _ count ih =>
    intro data buf result evs log out hc hr hrc hrun hnf
    rw [goldfish_audio_write_loop] at hrun
    split at hrun
    · rename_i hpos
      obtain ⟨hcopy, hu1, hu2⟩ := write_copy_small count hc
      have hmin : min count 16384 ≤ count := Nat.min_le_left _ _
      have hmin0 : 0 < min count 16384 := by omega
      have hs : s32 (result + ((min count 16384 : Nat) : Int))
          = result + ((min count 16384 : Nat) : Int) := by
        simp only [s32]; omega
      simp only [hcopy, hu1, hu2, hs] at hrun
      split at hrun
      · simp at hrun
      · rename_i ret data1 evs1 acts hwait
        obtain ⟨hd1, hacts⟩ := wait_event_interruptible_frame _ _ _ _ _ _ _ hwait
        have hbase : data1.reg_base = data.reg_base := by rw [hd1]
        have hstep := chunk_sizes_step count hpos
        have hbytes := user_bytes_append umem buf (min count 16384)
          (count - min count 16384)
        rw [Nat.add_sub_cancel' hmin] at hbytes
        generalize hk : (if data1.buffer_status &&& AUDIO_INT_WRITE_BUFFER_1_EMPTY ≠ 0
          then data1.write_buffer1 else data1.write_buffer2) = kbuf at hrun
        by_cases hf : ufault buf (min count 16384) = true
        · exfalso
          rw [if_pos hf] at hrun
          simp only [Option.some.injEq] at hrun
          subst hrun
          simp [no_copy_fault, copy_ok] at hnf
        · rw [if_neg hf] at hrun
          by_cases hkb : kbuf = data1.write_buffer1
          · rw [if_pos hkb] at hrun
            have := ih (count - min count 16384) (by omega) _ _ _ _ _ out (by omega)
              (by omega) (by omega) hrun hnf
            simp only [GOLDFISH_AUDIO_WRITE, hbase] at this
            obtain ⟨l1, l2, l3⟩ := write_log_step umem data.reg_base log acts hacts ret
              data1.buffer_status kbuf buf (min count 16384)
              AUDIO_WRITE_BUFFER_1 (Or.inl rfl)
            rw [l1, l2, l3] at this
            obtain ⟨t1, t2, t3, t4⟩ := this
            refine ⟨?_, ?_, ?_, ?_⟩
            · rw [t1, hstep]; simp
            · rw [t2, hstep]; simp
            · rw [t3, ← hbytes]; simp
            · rw [t4]; push_cast; omega
          · rw [if_neg hkb] at hrun
            have := ih (count - min count 16384) (by omega) _ _ _ _ _ out (by omega)
              (by omega) (by omega) hrun hnf
            simp only [GOLDFISH_AUDIO_WRITE, hbase] at this
            obtain ⟨l1, l2, l3⟩ := write_log_step umem data.reg_base log acts hacts ret
              data1.buffer_status kbuf buf (min count 16384)
              AUDIO_WRITE_BUFFER_2 (Or.inr rfl)
            rw [l1, l2, l3] at this
            obtain ⟨t1, t2, t3, t4⟩ := this
            refine ⟨?_, ?_, ?_, ?_⟩
            · rw [t1, hstep]; simp
            · rw [t2, hstep]; simp
            · rw [t3, ← hbytes]; simp
            · rw [t4]; push_cast; omega
    · have h0 : count = 0 := by omega
      subst h0
      simp only [Option.some.injEq] at hrun
      subst hrun
      simp [chunk_sizes_zero, user_bytes]

theorem write_wait_returns (data : goldfish_audio) (evs : List Event)
    (hev : write_interrupts evs)
    (hne : data.buffer_status &&& 3 ≠ 0 ∨ evs ≠ []) :
    ∃ data' evs' acts,
      wait_event_interruptible
        (fun d => d.buffer_status &&&
          (AUDIO_INT_WRITE_BUFFER_1_EMPTY ||| AUDIO_INT_WRITE_BUFFER_2_EMPTY) ≠ 0) data evs
        = some (0, data', evs', acts) ∧
      data'.buffer_status &&& 3 ≠ 0 ∧ write_interrupts evs' ∧
      evs.length ≤ evs'.length + 1 ∧
      (data.buffer_status &&& 3 ≠ 0 → evs' = evs) := by
  have hm : AUDIO_INT_WRITE_BUFFER_1_EMPTY ||| AUDIO_INT_WRITE_BUFFER_2_EMPTY = 3 := by decide
  rw [hm]
  by_cases hc : data.buffer_status &&& 3 ≠ 0
  · refine ⟨data, evs, [], ?_, hc, hev, by omega, fun _ => rfl⟩
    cases evs <;> simp [wait_event_interruptible, hc]
  · have hne' : evs ≠ [] := by tauto
    obtain ⟨e, rest, rfl⟩ := List.exists_cons_of_ne_nil hne'
    obtain ⟨h, rfl, hh⟩ := hev e (by simp)
    have h7 : h &&& 7 ≠ 0 := by
      intro h0
      apply hh
      rw [← and_seven_three, h0]
      rfl
    have hm7 : AUDIO_INT_MASK = 7 := by decide
    have hrest : write_interrupts rest := fun e he => hev e (List.mem_cons_of_mem _ he)
    have hc2 : (h &&& 7) &&& 3 ≠ 0 := by rw [and_seven_three]; exact hh
    refine ⟨{ data with buffer_status := h &&& 7 }, rest,
      [GOLDFISH_AUDIO_READ data AUDIO_INT_STATUS h, Action.wake_up], ?_, hc2, hrest, by simp,
      fun h' => absurd h' hc⟩
    cases rest <;>
      simp [wait_event_interruptible, hc, goldfish_audio_interrupt, hm7, h7, hc2]

theorem write_loop_returns (ufault : Int → Nat → Bool)
    (hfault : ∀ src k, ufault src k = false) :
    ∀ (count : Nat) (data : goldfish_audio) (buf result : Int) (evs : List Event)
      (log : List Action),
      count < 2147483648 → write_interrupts evs → (count + 16383) / 16384 ≤ evs.length →
      waits_satisfied 3 log = true → no_copy_fault log = true →
      ∃ out, goldfish_audio_write_loop ufault data buf count result evs log = some out ∧
        waits_satisfied 3 out.log = true ∧ no_copy_fault out.log = true := by
  intro count
  induction count using Nat.strong_induction_on with
  | _ count ih =>
    intro data buf result evs log hc hev hlen hw hnf
    rw [goldfish_audio_write_loop]
    by_cases hpos : count > 0
    · rw [dif_pos hpos]
      obtain ⟨hcopy, hu1, hu2⟩ := write_copy_small count hc
      have hmin : min count 16384 ≤ count := Nat.min_le_left _ _
      have hmin0 : 0 < min count 16384 := by omega
      have hne : evs ≠ [] := by
        intro h0
        subst h0
        simp at hlen
        omega
      obtain ⟨data1, evs1, acts, hwait, hst, hev1, hlen1, -⟩ :=
        write_wait_returns data evs hev (Or.inr hne)
      obtain ⟨-, hacts⟩ := wait_event_interruptible_frame _ _ _ _ _ _ _ hwait
      obtain ⟨ha1, ha2⟩ := handler_actions_pass 3 acts hacts
      simp only [hwait, hcopy, hu1, hu2, hfault, Bool.false_eq_true, if_false]
      generalize (if data1.buffer_status &&& AUDIO_INT_WRITE_BUFFER_1_EMPTY ≠ 0
        then data1.write_buffer1 else data1.write_buffer2) = kbuf
      have hlen' : (count - min count 16384 + 16383) / 16384 ≤ evs1.length := by omega
      simp only [waits_satisfied, no_copy_fault] at hw hnf ⊢
      split
      · apply ih (count - min count 16384) (by omega) _ _ _ _ _ (by omega) hev1 hlen'
        · simp [waits_satisfied, List.all_append, hw, ha1, wait_satisfied,
            GOLDFISH_AUDIO_WRITE]
          exact hst
        · simp [no_copy_fault, List.all_append, hnf, ha2, copy_ok, GOLDFISH_AUDIO_WRITE]
      · apply ih (count - min count 16384) (by omega) _ _ _ _ _ (by omega) hev1 hlen'
        · simp [waits_satisfied, List.all_append, hw, ha1, wait_satisfied,
            GOLDFISH_AUDIO_WRITE]
          exact hst
        · simp [no_copy_fault, List.all_append, hnf, ha2, copy_ok, GOLDFISH_AUDIO_WRITE]
    · rw [dif_neg hpos]
      exact ⟨_, rfl, hw, hnf⟩

/-- Enough interrupts give a result: when no copy faults and the events are at
least as many interrupts reporting a write buffer empty as there are chunks,
`goldfish_audio_write` returns, every wait came back satisfied and no copy
faulted. -/
theorem goldfish_audio_write_returns (ufault : Int → Nat → Bool)
    (hfault : ∀ src k, ufault src k = false) (data : goldfish_audio) (buf : Int) (n : Nat)
    (evs : List Event) (hn : n < 2147483648) (hev : write_interrupts evs)
    (hlen : (n + 16383) / 16384 ≤ evs.length) :
    ∃ out, goldfish_audio_write ufault data buf n evs = some out ∧
      waits_satisfied (AUDIO_INT_WRITE_BUFFER_1_EMPTY ||| AUDIO_INT_WRITE_BUFFER_2_EMPTY)
        out.log = true ∧
      no_copy_fault out.log = true := by
  have hm : AUDIO_INT_WRITE_BUFFER_1_EMPTY ||| AUDIO_INT_WRITE_BUFFER_2_EMPTY = 3 := by decide
  rw [hm]
  exact write_loop_returns ufault hfault n data buf 0 evs [] hn hev hlen rfl rfl

theorem write_20000_run :
    goldfish_audio_write (fun _ _ => false) (sample_dev 3) 0 20000 [] = some write_20000_out := by
  have e1 : (3 : Nat) &&& 4294967294 = 2 := by decide
  have e2 : (2 : Nat) &&& 4294967293 = 0 := by decide
  have e3 : (2 : Nat) &&& 1 = 0 := by decide
  unfold goldfish_audio_write
  rw [goldfish_audio_write_loop]
  simp [wait_event_interruptible, sample_dev, write_copy, s32, u32, WRITE_BUFFER_SIZE,
    AUDIO_INT_WRITE_BUFFER_1_EMPTY, AUDIO_INT_WRITE_BUFFER_2_EMPTY, not32, e1]
  rw [goldfish_audio_write_loop]
  simp [wait_event_interruptible, write_copy, s32, u32, WRITE_BUFFER_SIZE,
    AUDIO_INT_WRITE_BUFFER_1_EMPTY, AUDIO_INT_WRITE_BUFFER_2_EMPTY, not32, e2, e3]
  rw [goldfish_audio_write_loop]
  simp [write_20000_out, GOLDFISH_AUDIO_WRITE, AUDIO_WRITE_BUFFER_1, AUDIO_WRITE_BUFFER_2,
    sample_dev, WRITE_BUFFER_SIZE]

/-! ## The read loop -/

theorem read_loop_spec (ufault : Int → Nat → Bool) (avail : List Nat) :
    ∀ (count : Nat) (data : goldfish_audio) (buf result : Int) (evs : List Event)
      (log : List Action) (out : Out),
      count < 2147483648 → 0 ≤ result → result + count < 2147483648 →
      device_honours count avail →
      goldfish_audio_read_loop ufault data buf count result evs log avail = some out →
      no_copy_fault out.log = true →
      ∃ reqs copies,
        read_requests data.reg_base out.log = read_requests data.reg_base log ++ reqs ∧
        read_copies out.log = read_copies log ++ copies ∧
        List.Forall₂ (fun req n => n ≤ req ∧ req ≤ READ_BUFFER_SIZE) reqs copies ∧
        out.ret = result + count := by
  induction avail with
  | nil =>
    intro count data buf result evs log out hc hr hrc hdev hrun hnf
    simp only [goldfish_audio_read_loop] at hrun
    split at hrun
    · simp at hrun
    · have h0 : count = 0 := by omega
      subst h0
      simp only [Option.some.injEq] at hrun
      subst hrun
      exact ⟨[], [], by simp, by simp, List.Forall₂.nil, by simp⟩
  | cons a avail ih =>
    intro count data buf result evs log out hc hr hrc hdev hrun hnf
    simp only [goldfish_audio_read_loop] at hrun
    split at hrun
    · rename_i hpos
      simp only [device_honours, READ_BUFFER_SIZE] at hdev
      have hdev' : a ≤ min count 16384 ∧ device_honours (count - a) avail := by
        rcases hdev with h0 | h1
        · omega
        · exact h1
      obtain ⟨ha, hrest⟩ := hdev'
      have hac : a ≤ count := le_trans ha (Nat.min_le_left _ _)
      have ha16 : a ≤ 16384 := le_trans ha (Nat.min_le_right _ _)
      have hl : u32 (s32 (if count > READ_BUFFER_SIZE then (READ_BUFFER_SIZE : Int)
          else (count : Int))) = min count 16384 := by
        simp only [u32, s32, READ_BUFFER_SIZE]
        split <;> omega
      have hsa : s32 (a : Int) = a := by simp only [s32]; omega
      have hua : u32 (a : Int) = a := by simp only [u32]; omega
      have huc : u32 ((count : Int) - (a : Int)) = count - a := by simp only [u32]; omega
      have hsr : s32 (result + (a : Int)) = result + a := by simp only [s32]; omega
      split at hrun
      · simp at hrun
      · rename_i ret data1 evs1 acts hwait
        obtain ⟨hd1, hacts⟩ := wait_event_interruptible_frame _ _ _ _ _ _ _ hwait
        have hbase : data1.reg_base = data.reg_base := by rw [hd1]
        have hf1 := handler_actions_filter (start_read_length data.reg_base) acts hacts
          (fun _ _ => rfl) rfl
        have hf2 := handler_actions_filter to_user_length acts hacts (fun _ _ => rfl) rfl
        simp only [hsa, hua, huc, hsr, hl] at hrun
        by_cases hf : ufault buf a = true
        · exfalso
          rw [if_pos hf] at hrun
          simp only [Option.some.injEq] at hrun
          subst hrun
          simp [no_copy_fault, copy_ok] at hnf
        · rw [if_neg hf] at hrun
          obtain ⟨reqs, copies, h1, h2, h3, h4⟩ := ih (count - a) _ _ _ _ _ out (by omega)
            (by omega) (by omega) hrest hrun hnf
          refine ⟨min count 16384 :: reqs, a :: copies, ?_, ?_, ?_, ?_⟩
          · rw [hbase] at h1
            rw [h1]
            simp [read_requests, List.filterMap_append, hf1, start_read_length,
              GOLDFISH_AUDIO_WRITE, GOLDFISH_AUDIO_READ]
          · rw [h2]
            simp [read_copies, List.filterMap_append, hf2, to_user_length,
              GOLDFISH_AUDIO_WRITE, GOLDFISH_AUDIO_READ]
          · exact List.Forall₂.cons ⟨ha, by simp [READ_BUFFER_SIZE]⟩ h3
          · rw [h4]; push_cast [Nat.cast_sub hac]; omega
    · have h0 : count = 0 := by omega
      subst h0
      simp only [Option.some.injEq] at hrun
      subst hrun
      exact ⟨[], [], by simp, by simp, List.Forall₂.nil, by simp⟩

theorem u32_s32 (a : Nat) : u32 (s32 (a : Int)) = a % 4294967296 := by
  obtain ⟨q, hq⟩ := s32_wraps (a : Int)
  simp only [u32, hq, Int.add_mul_emod_self_left]
  omega

theorem read_loop_result (ufault : Int → Nat → Bool) (avail : List Nat) :
    ∀ (count : Nat) (data : goldfish_audio) (buf result : Int) (evs : List Event)
      (log : List Action) (out : Out),
      s32 result = result →
      goldfish_audio_read_loop ufault data buf count result evs log avail = some out →
      no_copy_fault out.log = true →
      out.ret = s32 (result + count) ∧
        (∃ reqs, read_requests data.reg_base out.log = read_requests data.reg_base log ++ reqs ∧
          ∀ req ∈ reqs, req ≤ READ_BUFFER_SIZE) ∧
        ∃ k, read_copies out.log
          = read_copies log ++ (avail.take k).map (fun a => a % 4294967296) := by
  induction avail with
  | nil =>
    intro count data buf result evs log out hres hrun hnf
    simp only [goldfish_audio_read_loop] at hrun
    split at hrun
    · simp at hrun
    · have h0 : count = 0 := by omega
      subst h0
      simp only [Option.some.injEq] at hrun
      subst hrun
      exact ⟨by simpa using hres.symm, ⟨[], by simp, by simp⟩, 0, by simp⟩
  | cons a avail ih =>
    intro count data buf result evs log out hres hrun hnf
    simp only [goldfish_audio_read_loop] at hrun
    split at hrun
    · have hl : u32 (s32 (if count > READ_BUFFER_SIZE then (READ_BUFFER_SIZE : Int)
          else (count : Int))) ≤ 16384 := by
        simp only [u32, s32, READ_BUFFER_SIZE]
        split <;> omega
      have hstep := read_step_result result count a
      split at hrun
      · simp at hrun
      · rename_i ret data1 evs1 acts hwait
        obtain ⟨hd1, hacts⟩ := wait_event_interruptible_frame _ _ _ _ _ _ _ hwait
        have hbase : data1.reg_base = data.reg_base := by rw [hd1]
        have hf1 := handler_actions_filter (start_read_length data.reg_base) acts hacts
          (fun _ _ => rfl) rfl
        have hf2 := handler_actions_filter to_user_length acts hacts (fun _ _ => rfl) rfl
        by_cases hf : ufault buf (u32 (s32 (a : Int))) = true
        · exfalso
          rw [if_pos hf] at hrun
          simp only [Option.some.injEq] at hrun
          subst hrun
          simp [no_copy_fault, copy_ok] at hnf
        · rw [if_neg hf] at hrun
          obtain ⟨h1, ⟨reqs, h2, h3⟩, k, h4⟩ := ih _ _ _ _ _ _ out (s32_idem _) hrun hnf
          refine ⟨by rw [h1, hstep],
            ⟨u32 (s32 (if count > READ_BUFFER_SIZE then (READ_BUFFER_SIZE : Int)
              else (count : Int))) :: reqs, ?_, ?_⟩, k + 1, ?_⟩
          · rw [hbase] at h2
            rw [h2]
            simp [read_requests, List.filterMap_append, hf1, start_read_length,
              GOLDFISH_AUDIO_WRITE, GOLDFISH_AUDIO_READ]
          · intro req hreq
            rcases List.mem_cons.mp hreq with rfl | hreq
            · exact hl
            · exact h3 req hreq
          · rw [h4]
            simp [read_copies, List.filterMap_append, hf2, to_user_length,
              GOLDFISH_AUDIO_WRITE, GOLDFISH_AUDIO_READ, u32_s32]
    · have h0 : count = 0 := by omega
      subst h0
      simp only [Option.some.injEq] at hrun
      subst hrun
      exact ⟨by simpa using hres.symm, ⟨[], by simp, by simp⟩, 0, by simp⟩

/-! ## Open and release: lemmas -/

theorem open_when_closed (st : Driver) (fp : file)
    (hatt : st.audio_data = audio_ptr.dev) (h0 : st.open_count = 0) :
    goldfish_audio_open st fp =
      (0,
        { st with
          dev := { st.dev with buffer_status :=
            AUDIO_INT_WRITE_BUFFER_1_EMPTY ||| AUDIO_INT_WRITE_BUFFER_2_EMPTY },
          open_count := 1 },
        { fp with private_data := audio_ptr.dev },
        [Action.writel AUDIO_INT_MASK (st.dev.reg_base + AUDIO_INT_ENABLE)]) := by
  have hc : atomic_inc_return st.open_count = 1 := by
    rw [h0]; decide
  simp only [goldfish_audio_open, hatt, hc, if_true, GOLDFISH_AUDIO_WRITE]

theorem open_when_held (st : Driver) (fp : file)
    (hatt : st.audio_data = audio_ptr.dev)
    (h1 : 1 ≤ st.open_count) (hmax : st.open_count ≤ 2147483647) :
    goldfish_audio_open st fp = (-EBUSY, st, fp, []) := by
  have hne : atomic_inc_return st.open_count ≠ 1 := by
    simp only [atomic_inc_return, s32]; omega
  have hback : atomic_dec (atomic_inc_return st.open_count) = st.open_count := by
    simp only [atomic_dec, atomic_inc_return, s32]; omega
  simp only [goldfish_audio_open, hatt, hne, if_false, hback]
  obtain ⟨ad, dv, oc⟩ := st
  simp only at hatt
  rw [hatt]

theorem release_when_attached (st : Driver) (fp : file)
    (hatt : st.audio_data = audio_ptr.dev)
    (hmin : -2147483648 < st.open_count) (hmax : st.open_count ≤ 2147483647) :
    goldfish_audio_release st fp =
      some (0, { st with open_count := st.open_count - 1 },
        [Action.writel 0 (st.dev.reg_base + AUDIO_INT_ENABLE)]) := by
  have hd : atomic_dec st.open_count = st.open_count - 1 := by
    simp only [atomic_dec, s32]; omega
  simp only [goldfish_audio_release, hatt, hd, GOLDFISH_AUDIO_WRITE]

theorem run_calls_head (st : Driver) (c : Int) (call : Call) (cs : List Call)
    (hatt : st.audio_data = audio_ptr.dev) (hc : st.open_count = c) (hc01 : c = 0 ∨ c = 1) :
    ∃ e0, run_calls st (call :: cs) = e0 :: run_calls e0.after cs ∧ e0.call = call ∧
      e0.after.audio_data = audio_ptr.dev ∧
      e0.after.open_count = c + holders_change e0 ∧
      (call = Call.do_open →
        (c + holders_change e0 = 0 ∨ c + holders_change e0 = 1) ∧
        (e0.ret = 0 ↔ c = 0) ∧ (e0.ret = 0 ∨ e0.ret = -EBUSY)) := by
  cases call with
  | do_open =>
    refine ⟨⟨Call.do_open, (goldfish_audio_open st ⟨audio_ptr.NULL⟩).1,
      (goldfish_audio_open st ⟨audio_ptr.NULL⟩).2.1⟩, rfl, rfl, ?_⟩
    rcases hc01 with h0 | h1
    · have ho := open_when_closed st ⟨audio_ptr.NULL⟩ hatt (by omega)
      simp only [ho, holders_change, if_true, h0]
      exact ⟨hatt, by decide, fun _ => ⟨by decide, by decide, by decide⟩⟩
    · have ho := open_when_held st ⟨audio_ptr.NULL⟩ hatt (by omega) (by omega)
      simp only [ho, holders_change, h1, EBUSY]
      exact ⟨hatt, by omega, fun _ => ⟨by decide, by decide, by decide⟩⟩
  | do_release =>
    have hr := release_when_attached st ⟨audio_ptr.dev⟩ hatt (by omega) (by omega)
    refine ⟨⟨Call.do_release, 0, { st with open_count := st.open_count - 1 }⟩, ?_, rfl, hatt,
      ?_, ?_⟩
    · simp only [run_calls, hr]
    · simp only [holders_change, hc]
      omega
    · intro h
      cases h

theorem run_calls_exclusive (calls : List Call) :
    ∀ (st : Driver) (c : Int), st.audio_data = audio_ptr.dev → st.open_count = c →
      (c = 0 ∨ c = 1) →
      (∀ k e, (run_calls st calls)[k]? = some e → e.call = Call.do_release →
        0 < c + unreleased ((run_calls st calls).take k)) →
      (run_calls st calls).length = calls.length ∧
      ∀ k e, (run_calls st calls)[k]? = some e →
        (e.after.open_count = 0 ∨ e.after.open_count = 1) ∧
        (e.call = Call.do_open →
          (e.ret = 0 ↔ c + unreleased ((run_calls st calls).take k) = 0) ∧
          (e.ret = 0 ∨ e.ret = -EBUSY)) := by
  induction calls with
  | nil =>
    intro st c _ _ _ _
    simp [run_calls]
  | cons call cs ih =>
    intro st c hatt hc hc01 hdisc
    obtain ⟨e0, hrun, hcall, hatt1, hc1, hopen⟩ := run_calls_head st c call cs hatt hc hc01
    rw [hrun] at hdisc ⊢
    have hc01' : c + holders_change e0 = 0 ∨ c + holders_change e0 = 1 := by
      cases call with
      | do_open => exact (hopen rfl).1
      | do_release =>
        have h := hdisc 0 e0 (by simp) hcall
        simp only [List.take_zero, unreleased] at h
        simp only [holders_change, hcall]
        omega
    have hdisc' : ∀ k e, (run_calls e0.after cs)[k]? = some e → e.call = Call.do_release →
        0 < (c + holders_change e0) + unreleased ((run_calls e0.after cs).take k) := by
      intro k e hk hrel
      have h := hdisc (k + 1) e (by simpa using hk) hrel
      simp only [List.take_succ_cons, unreleased] at h
      omega
    obtain ⟨hlen, hall⟩ := ih e0.after (c + holders_change e0) hatt1 hc1 hc01' hdisc'
    refine ⟨by simp [hlen], ?_⟩
    intro k e hk
    cases k with
    | zero =>
      simp only [List.getElem?_cons_zero, Option.some.injEq] at hk
      subst hk
      refine ⟨by rw [hc1]; exact hc01', ?_⟩
      intro ho
      rw [hcall] at ho
      subst ho
      obtain ⟨-, h2, h3⟩ := hopen rfl
      simp only [List.take_zero, unreleased, add_zero]
      exact ⟨h2, h3⟩
    | succ k =>
      simp only [List.getElem?_cons_succ] at hk
      obtain ⟨g1, g2⟩ := hall k e hk
      refine ⟨g1, ?_⟩
      intro ho
      obtain ⟨g3, g4⟩ := g2 ho
      simp only [List.take_succ_cons, unreleased]
      rw [← add_assoc]
      exact ⟨g3, g4⟩

theorem disciplined_spec (t : List Step) (h : disciplined t = true) :
    ∀ k e, t[k]? = some e → e.call = Call.do_release → 0 < unreleased (t.take k) := by
  intro k e hk hrel
  simp only [disciplined, List.all_eq_true, List.mem_range] at h
  have hlt : k < t.length := by
    by_contra hge
    rw [List.getElem?_eq_none (Nat.le_of_not_lt hge)] at hk
    cases hk
  have := h k hlt
  simpa [hk, hrel] using this

/-! ## Results: the write path -/

/-- C1: take a call of `goldfish_audio_write` for `n` bytes (`n` within `ssize_t`,
the range in which the call can return `n`) that returns, in which every wait
came back with a write-buffer-empty bit set and no copy from user memory
faulted.  Then the byte counts written to `AUDIO_WRITE_BUFFER_1/2` are, in
order, `n / 16384` times 16384 and then `n % 16384` when that is not zero; the
chunks copied have these same lengths, and concatenated they are the caller's
`n` bytes; the call returns `n`. -/
theorem goldfish_audio_write_chunks (ufault : Int → Nat → Bool) (umem : Int → Nat)
    (data : goldfish_audio) (buf : Int) (n : Nat) (evs : List Event) (out : Out)
    (hn : n < 2147483648)
    (hrun : goldfish_audio_write ufault data buf n evs = some out)
    (_hwaits : waits_satisfied
      (AUDIO_INT_WRITE_BUFFER_1_EMPTY ||| AUDIO_INT_WRITE_BUFFER_2_EMPTY) out.log = true)
    (hnf : no_copy_fault out.log = true) :
    write_commands data.reg_base out.log = chunk_sizes n ∧
      copied_lengths out.log = chunk_sizes n ∧
      copied_bytes umem out.log = user_bytes umem buf n ∧
      out.ret = n := by
  have h := write_loop_spec ufault umem n data buf 0 evs [] out hn (le_refl 0) (by omega)
    hrun hnf
  simpa [write_commands, copied_lengths, copied_bytes] using h

/-- C1, witness: 20000 bytes on a device with both write buffers empty give two
commands, 16384 to buffer 1 and then 3616 to buffer 2, and the call returns 20000. -/
theorem goldfish_audio_write_chunks_witness :
    ((20000 : Nat) < 2147483648 ∧
      goldfish_audio_write (fun _ _ => false) (sample_dev 3) 0 20000 [] = some write_20000_out ∧
      waits_satisfied (AUDIO_INT_WRITE_BUFFER_1_EMPTY ||| AUDIO_INT_WRITE_BUFFER_2_EMPTY)
        write_20000_out.log = true ∧
      no_copy_fault write_20000_out.log = true ∧
      write_commands (sample_dev 3).reg_base write_20000_out.log = [16384, 3616] ∧
      write_20000_out.ret = 20000) ∧
    (write_commands (sample_dev 3).reg_base write_20000_out.log = chunk_sizes 20000 ∧
      copied_lengths write_20000_out.log = chunk_sizes 20000 ∧
      copied_bytes (fun a => a.toNat % 256) write_20000_out.log
        = user_bytes (fun a => a.toNat % 256) 0 20000 ∧
      write_20000_out.ret = ((20000 : Nat) : Int)) :=
  ⟨⟨by decide, write_20000_run, by decide, by decide, by decide, by decide⟩,
    goldfish_audio_write_chunks (fun _ _ => false) (fun a => a.toNat % 256) (sample_dev 3) 0
      20000 [] write_20000_out (by decide) write_20000_run (by decide) (by decide)⟩

/-! ## Results: the interrupt handler -/

/-- C2, as the code has it: when the masked hardware status is non-zero, the
handler stores it as the cached `buffer_status`; the previous cached value
plays no part. -/
theorem interrupt_stores_masked_status (data : goldfish_audio) (h : Nat)
    (hh : h &&& AUDIO_INT_MASK ≠ 0) :
    (goldfish_audio_interrupt data h).2.1.buffer_status = h &&& AUDIO_INT_MASK := by
  simp [goldfish_audio_interrupt, hh]

/-- C2, witness: cached status 1, hardware status 12 (bit 2 and an unknown bit). -/
theorem interrupt_stores_masked_status_witness :
    12 &&& AUDIO_INT_MASK ≠ 0 ∧
      (goldfish_audio_interrupt (sample_dev 1) 12).2.1.buffer_status = 12 &&& AUDIO_INT_MASK :=
  ⟨by decide, interrupt_stores_masked_status (sample_dev 1) 12 (by decide)⟩

/-- C2, counterexample: with write buffer 1 cached as empty (status 1), an
interrupt that reports only read-buffer-full (hardware status 4) leaves the
cached status at 4, not at the merged value 5: the write-buffer-1 flag is gone. -/
theorem interrupt_merge_counterexample :
    (4 &&& AUDIO_INT_MASK ≠ 0) ∧
      (goldfish_audio_interrupt (sample_dev 1) 4).2.1.buffer_status = 4 ∧
      ((sample_dev 1).buffer_status ||| (4 &&& AUDIO_INT_MASK)) = 5 ∧
      (goldfish_audio_interrupt (sample_dev 1) 4).2.1.buffer_status &&&
        AUDIO_INT_WRITE_BUFFER_1_EMPTY = 0 := by
  decide

/-- C3: the handler returns `IRQ_HANDLED` exactly when one of the three low bits
of the hardware status is set and `IRQ_NONE` exactly when none is; when it
returns `IRQ_NONE` the device structure, and so the cached `buffer_status`, is
as before. -/
theorem interrupt_handled_iff (data : goldfish_audio) (h : Nat) :
    ((goldfish_audio_interrupt data h).1 = irqreturn_t.IRQ_HANDLED ↔ h &&& 7 ≠ 0) ∧
    ((goldfish_audio_interrupt data h).1 = irqreturn_t.IRQ_NONE ↔ h &&& 7 = 0) ∧
    ((goldfish_audio_interrupt data h).1 = irqreturn_t.IRQ_NONE →
      (goldfish_audio_interrupt data h).2.1 = data) := by
  have hm : AUDIO_INT_MASK = 7 := by decide
  simp only [goldfish_audio_interrupt, hm]
  by_cases h7 : h &&& 7 = 0 <;> simp [h7]

/-! ## Results: waits ended by a signal -/

/-- C4, the code at a failing input: no write buffer is empty (cached status 0)
and the only event is a signal.  The wait of `goldfish_audio_write` for 100
bytes comes back with `-ERESTARTSYS` and the call goes on: it copies the 100
bytes into write buffer 2, whose empty flag is clear, writes 100 to
`AUDIO_WRITE_BUFFER_2` and returns 100.  In the same way `goldfish_audio_read`
for 100 bytes, its wait ended by the signal with read-buffer-full clear, reads
`AUDIO_READ_BUFFER_AVAILABLE`, copies to the caller and returns 100. -/
theorem interrupted_wait_is_ignored :
    goldfish_audio_write (fun _ _ => false) (sample_dev 0) 0 100 [Event.signal] =
      some { ret := 100, data := sample_dev 0, events := [],
             log := [Action.wait_return (-ERESTARTSYS) 0,
               Action.copy_from_user (sample_dev 0).write_buffer2 0 100 false,
               Action.writel 100 ((sample_dev 0).reg_base + AUDIO_WRITE_BUFFER_2)] } ∧
    goldfish_audio_read (fun _ _ => false) (sample_dev 0) 0 100 [Event.signal] [100] =
      some { ret := 100, data := sample_dev 0, events := [],
             log := [Action.writel 100 ((sample_dev 0).reg_base + AUDIO_START_READ),
               Action.wait_return (-ERESTARTSYS) 0,
               Action.readl ((sample_dev 0).reg_base + AUDIO_READ_BUFFER_AVAILABLE) 100,
               Action.copy_to_user 0 (sample_dev 0).read_buffer 100 false] } := by
  have e1 : (0 : Nat) &&& 4294967293 = 0 := by decide
  constructor
  · unfold goldfish_audio_write
    rw [goldfish_audio_write_loop]
    simp [wait_event_interruptible, sample_dev, write_copy, s32, u32, WRITE_BUFFER_SIZE,
      AUDIO_INT_WRITE_BUFFER_1_EMPTY, AUDIO_INT_WRITE_BUFFER_2_EMPTY, not32, e1]
    rw [goldfish_audio_write_loop]
    simp [GOLDFISH_AUDIO_WRITE]
  · decide

/-! ## Results: the read path -/

/-- C5, as the code has it: take a call of `goldfish_audio_read` for `count` bytes
(`count` within `ssize_t`) on a device that supports reading, whatever the
device answers to `AUDIO_READ_BUFFER_AVAILABLE`.  If the call returns and no
copy to the caller faulted, the value returned is between 0 and `count` and
every length written to `AUDIO_START_READ` is at most `READ_BUFFER_SIZE`.  The
chunks copied have the lengths the device answered, one answer after the
other, not cut down to the length requested: command by command the chunk is
at most that length when the device never answers with more than was requested. -/
theorem goldfish_audio_read_bounds (ufault : Int → Nat → Bool) (data : goldfish_audio)
    (buf : Int) (count : Nat) (evs : List Event) (avail : List Nat) (out : Out)
    (hc : count < 2147483648) (hsup : data.read_supported ≠ 0)
    (hrun : goldfish_audio_read ufault data buf count evs avail = some out)
    (hnf : no_copy_fault out.log = true) :
    0 ≤ out.ret ∧ out.ret ≤ count ∧
      (∀ req ∈ read_requests data.reg_base out.log, req ≤ READ_BUFFER_SIZE) ∧
      (∃ k, read_copies out.log = (avail.take k).map (fun a => a % 4294967296)) ∧
      (device_honours count avail →
        List.Forall₂ (fun req n => n ≤ req ∧ req ≤ READ_BUFFER_SIZE)
          (read_requests data.reg_base out.log) (read_copies out.log)) := by
  simp only [goldfish_audio_read, hsup, if_false] at hrun
  obtain ⟨g1, ⟨greqs, g2, g3⟩, k, g4⟩ := read_loop_result ufault avail count data buf 0 evs []
    out (by decide) hrun hnf
  have hret : out.ret = count := by
    rw [g1]
    simp only [s32]
    omega
  simp only [read_requests, List.filterMap_nil, List.nil_append] at g2
  refine ⟨by omega, by omega, ?_, ⟨k, by simpa [read_copies] using g4⟩, ?_⟩
  · simp only [read_requests, g2]
    exact g3
  · intro hdev
    obtain ⟨reqs, copies, h1, h2, h3, -⟩ := read_loop_spec ufault avail count data buf 0 evs []
      out hc (le_refl 0) (by omega) hdev hrun hnf
    simp only [read_requests, read_copies, List.filterMap_nil, List.nil_append] at h1 h2
    simp only [read_requests, read_copies, h1, h2]
    exact h3

/-- C5, witness: 20000 bytes delivered as 10000 and 10000. -/
theorem goldfish_audio_read_bounds_witness :
    ((20000 : Nat) < 2147483648 ∧ (sample_dev 0).read_supported ≠ 0 ∧
      goldfish_audio_read (fun _ _ => false) (sample_dev 0) 0 20000 [Event.irq 4]
        [10000, 10000] = some read_20000_out ∧
      no_copy_fault read_20000_out.log = true) ∧
    (0 ≤ read_20000_out.ret ∧ read_20000_out.ret ≤ ((20000 : Nat) : Int) ∧
      (∀ req ∈ read_requests (sample_dev 0).reg_base read_20000_out.log,
        req ≤ READ_BUFFER_SIZE) ∧
      (∃ k, read_copies read_20000_out.log
        = (([10000, 10000] : List Nat).take k).map (fun a => a % 4294967296)) ∧
      (device_honours 20000 [10000, 10000] →
        List.Forall₂ (fun req n => n ≤ req ∧ req ≤ READ_BUFFER_SIZE)
          (read_requests (sample_dev 0).reg_base read_20000_out.log)
          (read_copies read_20000_out.log))) :=
  ⟨⟨by decide, by decide, by decide, by decide⟩,
    goldfish_audio_read_bounds (fun _ _ => false) (sample_dev 0) 0 20000 [Event.irq 4]
      [10000, 10000] read_20000_out (by decide) (by decide) (by decide) (by decide)⟩

/-- C5, counterexample: the caller asks for 40000 bytes, the driver requests 16384
and the device answers 40000.  The call succeeds and returns 40000, having
copied one chunk of 40000 bytes, more than the 16384 requested by the
preceding `AUDIO_START_READ`. -/
theorem read_chunk_exceeds_request :
    goldfish_audio_read (fun _ _ => false) (sample_dev 0) 0 40000 [Event.irq 4] [40000]
        = some read_40000_out ∧
      read_40000_out.ret = 40000 ∧
      read_requests (sample_dev 0).reg_base read_40000_out.log = [16384] ∧
      read_copies read_40000_out.log = [40000] ∧
      (16384 : Nat) < 40000 := by
  decide

/-- C6: on a device with `read_supported == 0`, `goldfish_audio_read` returns
`-ENODEV` for every requested length; it performs no action at all (no write to
`AUDIO_START_READ`, no wait), consumes no event and leaves the device structure,
and so `buffer_status`, as it was. -/
theorem goldfish_audio_read_unsupported (ufault : Int → Nat → Bool) (data : goldfish_audio)
    (buf : Int) (count : Nat) (evs : List Event) (avail : List Nat)
    (h : data.read_supported = 0) :
    goldfish_audio_read ufault data buf count evs avail =
      some { ret := -ENODEV, data := data, events := evs, log := [] } := by
  simp [goldfish_audio_read, h]

/-- C6, witness: length 0 on a device without audio input, with an interrupt and a
device answer pending. -/
theorem goldfish_audio_read_unsupported_witness :
    ({ sample_dev 4 with read_supported := 0 } : goldfish_audio).read_supported = 0 ∧
      goldfish_audio_read (fun _ _ => false) { sample_dev 4 with read_supported := 0 } 0 0
        [Event.irq 4] [16] =
      some { ret := -ENODEV, data := { sample_dev 4 with read_supported := 0 },
             events := [Event.irq 4], log := [] } :=
  ⟨rfl, goldfish_audio_read_unsupported (fun _ _ => false)
    { sample_dev 4 with read_supported := 0 } 0 0 [Event.irq 4] [16] rfl⟩

/-! ## Results: open and release -/

/-- C7: take any sequence of `goldfish_audio_open` and `goldfish_audio_release`
calls on an attached device, starting from `open_count == 0`, in which release
is only called while a successful open is unreleased.  Every call returns.
After each call `open_count` is 0 or 1.  An open returns 0 exactly when the
successful opens before it have all been released, and `-EBUSY` otherwise.
In particular open, open, release, open return 0, `-EBUSY`, 0, 0. -/
theorem exclusive_open_sequences (d : goldfish_audio) (calls : List Call)
    (hdisc : disciplined (run_calls (closed_attached d) calls) = true) :
    (run_calls (closed_attached d) calls).length = calls.length ∧
    (∀ k e, (run_calls (closed_attached d) calls)[k]? = some e →
      (e.after.open_count = 0 ∨ e.after.open_count = 1) ∧
      (e.call = Call.do_open →
        (e.ret = 0 ↔ unreleased ((run_calls (closed_attached d) calls).take k) = 0) ∧
        (e.ret = 0 ∨ e.ret = -EBUSY))) ∧
    (run_calls (closed_attached d)
        [Call.do_open, Call.do_open, Call.do_release, Call.do_open]).map Step.ret
      = [0, -EBUSY, 0, 0] := by
  have hd := disciplined_spec _ hdisc
  obtain ⟨h1, h2⟩ := run_calls_exclusive calls (closed_attached d) 0 rfl rfl (Or.inl rfl)
    (by simpa using hd)
  refine ⟨h1, ?_, ?_⟩
  · simpa using h2
  · rfl

/-- C7, witness: open, open, release, open, release on `sample_dev 0`. -/
theorem exclusive_open_sequences_witness :
    disciplined (run_calls (closed_attached (sample_dev 0))
        [Call.do_open, Call.do_open, Call.do_release, Call.do_open, Call.do_release]) = true ∧
    ((run_calls (closed_attached (sample_dev 0))
        [Call.do_open, Call.do_open, Call.do_release, Call.do_open, Call.do_release]).length
      = [Call.do_open, Call.do_open, Call.do_release, Call.do_open, Call.do_release].length ∧
    (∀ k e, (run_calls (closed_attached (sample_dev 0))
        [Call.do_open, Call.do_open, Call.do_release, Call.do_open, Call.do_release])[k]?
          = some e →
      (e.after.open_count = 0 ∨ e.after.open_count = 1) ∧
      (e.call = Call.do_open →
        (e.ret = 0 ↔ unreleased ((run_calls (closed_attached (sample_dev 0))
          [Call.do_open, Call.do_open, Call.do_release, Call.do_open,
            Call.do_release]).take k) = 0) ∧
        (e.ret = 0 ∨ e.ret = -EBUSY))) ∧
    (run_calls (closed_attached (sample_dev 0))
        [Call.do_open, Call.do_open, Call.do_release, Call.do_open]).map Step.ret
      = [0, -EBUSY, 0, 0]) :=
  ⟨by decide, exclusive_open_sequences (sample_dev 0)
    [Call.do_open, Call.do_open, Call.do_release, Call.do_open, Call.do_release] (by decide)⟩

/-- C8: on an attached device whose `open_count` is at least 1 (and an `int`),
`goldfish_audio_open` returns `-EBUSY`; the file-scope state is as before
(`open_count` back at its value, the device structure and so `buffer_status`
untouched), the file is as before (`private_data` not set) and no register is
accessed. -/
theorem goldfish_audio_open_busy (st : Driver) (fp : file)
    (hatt : st.audio_data = audio_ptr.dev)
    (h1 : 1 ≤ st.open_count) (hmax : st.open_count ≤ 2147483647) :
    goldfish_audio_open st fp = (-EBUSY, st, fp, []) :=
  open_when_held st fp hatt h1 hmax

/-- C8, witness: a second open while the device is held, with the read-buffer-full
flag cached. -/
theorem goldfish_audio_open_busy_witness :
    ((⟨audio_ptr.dev, sample_dev 4, 1⟩ : Driver).audio_data = audio_ptr.dev ∧
      1 ≤ (⟨audio_ptr.dev, sample_dev 4, 1⟩ : Driver).open_count ∧
      (⟨audio_ptr.dev, sample_dev 4, 1⟩ : Driver).open_count ≤ 2147483647) ∧
    goldfish_audio_open ⟨audio_ptr.dev, sample_dev 4, 1⟩ ⟨audio_ptr.NULL⟩ =
      (-EBUSY, ⟨audio_ptr.dev, sample_dev 4, 1⟩, ⟨audio_ptr.NULL⟩, []) :=
  ⟨⟨rfl, by decide, by decide⟩,
    goldfish_audio_open_busy ⟨audio_ptr.dev, sample_dev 4, 1⟩ ⟨audio_ptr.NULL⟩ rfl
      (by decide) (by decide)⟩

/-- C9: on an attached device with `open_count == 0`, whatever the cached status,
`goldfish_audio_open` returns 0, leaves `open_count == 1`, sets `buffer_status`
to `AUDIO_INT_WRITE_BUFFER_1_EMPTY | AUDIO_INT_WRITE_BUFFER_2_EMPTY`, which is 3
and has the read-buffer-full bit clear, sets the file's `private_data`, and
its one register access writes `AUDIO_INT_MASK`, which is 7, to
`AUDIO_INT_ENABLE`, which is offset 4 of the register block. -/
theorem goldfish_audio_open_first (st : Driver) (fp : file)
    (hatt : st.audio_data = audio_ptr.dev) (h0 : st.open_count = 0) :
    goldfish_audio_open st fp =
      (0,
        { st with
          dev := { st.dev with buffer_status :=
            AUDIO_INT_WRITE_BUFFER_1_EMPTY ||| AUDIO_INT_WRITE_BUFFER_2_EMPTY },
          open_count := 1 },
        { fp with private_data := audio_ptr.dev },
        [Action.writel AUDIO_INT_MASK (st.dev.reg_base + AUDIO_INT_ENABLE)]) ∧
    (AUDIO_INT_WRITE_BUFFER_1_EMPTY ||| AUDIO_INT_WRITE_BUFFER_2_EMPTY = 3 ∧
      3 &&& AUDIO_INT_READ_BUFFER_FULL = 0 ∧ AUDIO_INT_MASK = 7 ∧ AUDIO_INT_ENABLE = 4) := by
  exact ⟨open_when_closed st fp hatt h0, by decide⟩

/-- C9, witness: the first open of a device whose cached status has only the
read-buffer-full flag set. -/
theorem goldfish_audio_open_first_witness :
    ((⟨audio_ptr.dev, sample_dev 4, 0⟩ : Driver).audio_data = audio_ptr.dev ∧
      (⟨audio_ptr.dev, sample_dev 4, 0⟩ : Driver).open_count = 0) ∧
    (goldfish_audio_open ⟨audio_ptr.dev, sample_dev 4, 0⟩ ⟨audio_ptr.NULL⟩ =
      (0,
        { (⟨audio_ptr.dev, sample_dev 4, 0⟩ : Driver) with
          dev := { (⟨audio_ptr.dev, sample_dev 4, 0⟩ : Driver).dev with buffer_status :=
            AUDIO_INT_WRITE_BUFFER_1_EMPTY ||| AUDIO_INT_WRITE_BUFFER_2_EMPTY },
          open_count := 1 },
        { (⟨audio_ptr.NULL⟩ : file) with private_data := audio_ptr.dev },
        [Action.writel AUDIO_INT_MASK
          ((⟨audio_ptr.dev, sample_dev 4, 0⟩ : Driver).dev.reg_base + AUDIO_INT_ENABLE)]) ∧
    (AUDIO_INT_WRITE_BUFFER_1_EMPTY ||| AUDIO_INT_WRITE_BUFFER_2_EMPTY = 3 ∧
      3 &&& AUDIO_INT_READ_BUFFER_FULL = 0 ∧ AUDIO_INT_MASK = 7 ∧ AUDIO_INT_ENABLE = 4)) :=
  ⟨⟨rfl, rfl⟩,
    goldfish_audio_open_first ⟨audio_ptr.dev, sample_dev 4, 0⟩ ⟨audio_ptr.NULL⟩ rfl rfl⟩

/-- C10, as the code has it: on an attached device, for every `int` value `c` of
`open_count` above `INT_MIN`, `goldfish_audio_release` returns 0, leaves
`open_count == c - 1` and writes 0 to `AUDIO_INT_ENABLE`, whether or not the
decremented counter is zero; it does nothing else. -/
theorem goldfish_audio_release_disables (st : Driver) (fp : file)
    (hatt : st.audio_data = audio_ptr.dev)
    (hmin : -2147483648 < st.open_count) (hmax : st.open_count ≤ 2147483647) :
    goldfish_audio_release st fp =
      some (0, { st with open_count := st.open_count - 1 },
        [Action.writel 0 (st.dev.reg_base + AUDIO_INT_ENABLE)]) :=
  release_when_attached st fp hatt hmin hmax

/-- C10, witness: release by the one holder. -/
theorem goldfish_audio_release_disables_witness :
    ((⟨audio_ptr.dev, sample_dev 3, 1⟩ : Driver).audio_data = audio_ptr.dev ∧
      -2147483648 < (⟨audio_ptr.dev, sample_dev 3, 1⟩ : Driver).open_count ∧
      (⟨audio_ptr.dev, sample_dev 3, 1⟩ : Driver).open_count ≤ 2147483647) ∧
    goldfish_audio_release ⟨audio_ptr.dev, sample_dev 3, 1⟩ ⟨audio_ptr.dev⟩ =
      some (0, { (⟨audio_ptr.dev, sample_dev 3, 1⟩ : Driver) with
          open_count := (⟨audio_ptr.dev, sample_dev 3, 1⟩ : Driver).open_count - 1 },
        [Action.writel 0
          ((⟨audio_ptr.dev, sample_dev 3, 1⟩ : Driver).dev.reg_base + AUDIO_INT_ENABLE)]) :=
  ⟨⟨rfl, by decide, by decide⟩,
    goldfish_audio_release_disables ⟨audio_ptr.dev, sample_dev 3, 1⟩ ⟨audio_ptr.dev⟩ rfl
      (by decide) (by decide)⟩

/-- C10, counterexample: with `open_count == 2` the decremented counter is 1, not
zero, and `goldfish_audio_release` still writes 0 to `AUDIO_INT_ENABLE`. -/
theorem release_disables_at_nonzero_count :
    goldfish_audio_release ⟨audio_ptr.dev, sample_dev 3, 2⟩ ⟨audio_ptr.dev⟩ =
      some (0, ⟨audio_ptr.dev, sample_dev 3, 1⟩,
        [Action.writel 0 ((sample_dev 3).reg_base + AUDIO_INT_ENABLE)]) ∧
    (2 : Int) - 1 ≠ 0 := by
  decide

/-! ## The TTY driver: lemmas -/

theorem list_set_same {α : Type} (l : List α) (i : Nat) (a : α) (h : l[i]? = some a) :
    l.set i a = l := by
  apply List.ext_getElem?
  intro j
  rw [List.getElem?_set]
  by_cases hij : i = j
  · subst hij
    obtain ⟨hlt, -⟩ := List.getElem?_eq_some.mp h
    simp [hlt, h]
  · simp [hij]

theorem open_qtty_ok (qtty : goldfish_tty) (tty : Nat) (last : Option Nat) (n : Nat)
    (h : tty_line_ok qtty last (n + 1)) :
    tty_line_ok (goldfish_tty_open_qtty qtty tty).2.1
        (next_tty_command qtty.base last (goldfish_tty_open_qtty qtty tty).2.2) n ∧
      (goldfish_tty_open_qtty qtty tty).2.1.base = qtty.base := by
  obtain ⟨h0, h1, h2, h3⟩ := h
  have hs : s32 (qtty.opencount + 1) = qtty.opencount + 1 :=
    s32_of_range _ (by omega) (by omega)
  simp only [goldfish_tty_open_qtty, hs]
  by_cases hown : qtty.tty = none ∨ qtty.tty = some tty
  · rw [if_pos hown]
    by_cases hz : qtty.opencount = 0
    · rw [if_pos hz]
      refine ⟨⟨by simp; omega, by simp; omega, ?_, by simp; omega⟩, rfl⟩
      simp [next_tty_command, tty_command]
      omega
    · rw [if_neg hz]
      refine ⟨⟨by simp; omega, ?_, ?_, by simp; omega⟩, rfl⟩
      · simp only
        constructor
        · intro; omega
        · intro hn; exact absurd (h1.mpr hn) hz
      · simp only [next_tty_command, List.filterMap_nil, List.getLast?_nil]
        rw [h2]
        constructor <;> intro <;> omega
  · rw [if_neg hown]
    refine ⟨⟨h0, h1, ?_, by simp only; omega⟩, rfl⟩
    simp only [next_tty_command, List.filterMap_nil, List.getLast?_nil]
    exact h2

theorem close_qtty_ok (qtty : goldfish_tty) (tty : Nat) (last : Option Nat) (n : Nat)
    (h : tty_line_ok qtty last (n + 1)) :
    tty_line_ok (goldfish_tty_close_qtty qtty tty).1
        (next_tty_command qtty.base last (goldfish_tty_close_qtty qtty tty).2) n ∧
      (goldfish_tty_close_qtty qtty tty).1.base = qtty.base := by
  obtain ⟨h0, h1, h2, h3⟩ := h
  simp only [goldfish_tty_close_qtty]
  by_cases hown : qtty.tty = some tty
  · rw [if_pos hown]
    have hpos : 0 < qtty.opencount := by
      by_contra hle
      have := h1.mp (by omega)
      rw [hown] at this
      cases this
    have hs : s32 (qtty.opencount - 1) = qtty.opencount - 1 :=
      s32_of_range _ (by omega) (by omega)
    simp only [hs]
    by_cases hz : qtty.opencount - 1 = 0
    · rw [if_pos hz]
      refine ⟨⟨by simp; omega, by simp; omega, ?_, by simp; omega⟩, rfl⟩
      simp [next_tty_command, tty_command, GOLDFISH_TTY_CMD_INT_DISABLE,
        GOLDFISH_TTY_CMD_INT_ENABLE]
      omega
    · rw [if_neg hz]
      refine ⟨⟨by simp; omega, ?_, ?_, by simp; omega⟩, rfl⟩
      · simp only [hown]
        constructor
        · intro; omega
        · intro hn; cases hn
      · simp only [next_tty_command, List.filterMap_nil, List.getLast?_nil]
        rw [h2]
        constructor <;> intro <;> omega
  · rw [if_neg hown]
    refine ⟨⟨h0, h1, ?_, by simp only; omega⟩, rfl⟩
    simp only [next_tty_command, List.filterMap_nil, List.getLast?_nil]
    exact h2

theorem tty_line_ok_weaken (qtty : goldfish_tty) (last : Option Nat) (n : Nat)
    (h : tty_line_ok qtty last (n + 1)) : tty_line_ok qtty last n := by
  obtain ⟨h0, h1, h2, h3⟩ := h
  exact ⟨h0, h1, h2, by omega⟩

theorem run_tty_calls_head (ttys : List goldfish_tty) (last : Nat → Option Nat) (n : Nat)
    (c : TtyCall) (cs : List TtyCall) (hidx : c.session.index < ttys.length)
    (hinv : ∀ line q, ttys[line]? = some q → tty_line_ok q (last line) (n + 1)) :
    ∃ s, run_tty_calls ttys (c :: cs) = s :: run_tty_calls s.after cs ∧ s.call = c ∧
      s.before = ttys ∧ s.after.length = ttys.length ∧
      (∀ line q, s.after[line]? = some q →
        tty_line_ok q
          (match step_tty_command line s with
            | some x => some x
            | none => last line) n) ∧
      (∀ tty q, c = TtyCall.do_close tty → ttys[tty.index]? = some q →
        q.tty ≠ some tty.addr → s.after = ttys ∧ s.log = []) := by
  obtain ⟨q0, hq0⟩ : ∃ q0, ttys[c.session.index]? = some q0 :=
    ⟨ttys[c.session.index], by simp [hidx]⟩
  have hok0 := hinv _ _ hq0
  cases c with
  | do_open tty =>
    simp only [TtyCall.session] at hidx hq0 hok0
    obtain ⟨hnew, hbase⟩ := open_qtty_ok q0 tty.addr (last tty.index) n hok0
    refine ⟨⟨TtyCall.do_open tty, (goldfish_tty_open_qtty q0 tty.addr).1,
      (goldfish_tty_open_qtty q0 tty.addr).2.2, ttys,
      ttys.set tty.index (goldfish_tty_open_qtty q0 tty.addr).2.1⟩, ?_, rfl, rfl, by simp, ?_, ?_⟩
    · simp only [run_tty_calls, goldfish_tty_open, hq0]
    · intro line q hq
      by_cases hl : tty.index = line
      · subst hl
        simp only [List.getElem?_set_self hidx, Option.some.injEq] at hq
        subst hq
        simpa [step_tty_command, TtyCall.session, hq0, next_tty_command] using hnew
      · rw [List.getElem?_set_ne hl] at hq
        simpa [step_tty_command, TtyCall.session, hl] using
          tty_line_ok_weaken _ _ _ (hinv line q hq)
    · intro t q h
      cases h
  | do_close tty =>
    simp only [TtyCall.session] at hidx hq0 hok0
    obtain ⟨hnew, hbase⟩ := close_qtty_ok q0 tty.addr (last tty.index) n hok0
    refine ⟨⟨TtyCall.do_close tty, 0, (goldfish_tty_close_qtty q0 tty.addr).2, ttys,
      ttys.set tty.index (goldfish_tty_close_qtty q0 tty.addr).1⟩, ?_, rfl, rfl, by simp, ?_, ?_⟩
    · simp only [run_tty_calls, goldfish_tty_close, hq0]
    · intro line q hq
      by_cases hl : tty.index = line
      · subst hl
        simp only [List.getElem?_set_self hidx, Option.some.injEq] at hq
        subst hq
        simpa [step_tty_command, TtyCall.session, hq0, next_tty_command] using hnew
      · rw [List.getElem?_set_ne hl] at hq
        simpa [step_tty_command, TtyCall.session, hl] using
          tty_line_ok_weaken _ _ _ (hinv line q hq)
    · intro t q h hq hne
      cases h
      rw [hq0] at hq
      cases hq
      simp only [goldfish_tty_close_qtty, hne, if_false]
      exact ⟨list_set_same _ _ _ hq0, trivial⟩

theorem run_tty_calls_ok (calls : List TtyCall) :
    ∀ (ttys : List goldfish_tty) (last : Nat → Option Nat),
      (∀ c ∈ calls, c.session.index < ttys.length) →
      (∀ line q, ttys[line]? = some q → tty_line_ok q (last line) calls.length) →
      (run_tty_calls ttys calls).length = calls.length ∧
      ∀ k step, (run_tty_calls ttys calls)[k]? = some step →
        (∀ line q, step.after[line]? = some q →
          0 ≤ q.opencount ∧ (q.opencount = 0 ↔ q.tty = none) ∧
          (last_tty_command line (last line) ((run_tty_calls ttys calls).take (k + 1))
              = some GOLDFISH_TTY_CMD_INT_ENABLE ↔ 0 < q.opencount)) ∧
        (∀ tty q, step.call = TtyCall.do_close tty → step.before[tty.index]? = some q →
          q.tty ≠ some tty.addr → step.after = step.before ∧ step.log = []) := by
  induction calls with
  | nil =>
    intro ttys last _ _
    simp [run_tty_calls]
  | cons c cs ih =>
    intro ttys last hidx hinv
    obtain ⟨s, hrun, hcall, hbefore, hlen, hafter, hclose⟩ :=
      run_tty_calls_head ttys last cs.length c cs (hidx c (List.mem_cons_self _ _)) hinv
    rw [hrun]
    obtain ⟨ihlen, ihall⟩ := ih s.after
      (fun line => match step_tty_command line s with
        | some x => some x
        | none => last line)
      (fun c' hc' => by rw [hlen]; exact hidx c' (List.mem_cons_of_mem _ hc')) hafter
    refine ⟨by simp [ihlen], ?_⟩
    intro k step hk
    have hlast : ∀ line (t : List TtyStep),
        last_tty_command line (last line) (s :: t) =
          last_tty_command line
            (match step_tty_command line s with
              | some x => some x
              | none => last line) t := by
      intro line t
      simp only [last_tty_command]
      cases step_tty_command line s <;> rfl
    cases k with
    | zero =>
      simp only [List.getElem?_cons_zero, Option.some.injEq] at hk
      subst hk
      refine ⟨?_, ?_⟩
      · intro line q hq
        obtain ⟨h0, h1, h2, -⟩ := hafter line q hq
        refine ⟨h0, h1, ?_⟩
        simp only [zero_add, List.take_succ_cons, List.take_zero, hlast, last_tty_command]
        exact h2
      · intro tty q hc hq hne
        rw [hcall] at hc
        rw [hbefore] at hq ⊢
        exact hclose tty q hc hq hne
    | succ k =>
      simp only [List.getElem?_cons_succ] at hk
      obtain ⟨g1, g2⟩ := ihall k step hk
      refine ⟨?_, g2⟩
      intro line q hq
      obtain ⟨h0, h1, h2⟩ := g1 line q hq
      refine ⟨h0, h1, ?_⟩
      simp only [List.take_succ_cons, hlast]
      exact h2

/-! ## Results: the TTY lines -/

/-- C11: take a line of the array and a session `tty` for it.  When the line has
no owner or its owner is `tty`, `goldfish_tty_open` returns 0 and the line's
`opencount` is one more than before (for an `int` below `INT_MAX`).  When the
line's owner is another session, it returns `-EBUSY`, the array is as before
and no register is accessed.  An open or a close for this line leaves every
other line of the array as it was. -/
theorem goldfish_tty_open_owner_rule (ttys : List goldfish_tty) (tty : tty_struct)
    (qtty : goldfish_tty) (hq : ttys[tty.index]? = some qtty) :
    ((qtty.tty = none ∨ qtty.tty = some tty.addr) →
      -2147483648 ≤ qtty.opencount → qtty.opencount < 2147483647 →
      ∃ ttys' log qtty', goldfish_tty_open ttys tty = some (0, ttys', log) ∧
        ttys'[tty.index]? = some qtty' ∧ qtty'.opencount = qtty.opencount + 1) ∧
    (qtty.tty ≠ none → qtty.tty ≠ some tty.addr →
      goldfish_tty_open ttys tty = some (-EBUSY, ttys, [])) ∧
    (∀ r, goldfish_tty_open ttys tty = some r →
      ∀ line, line ≠ tty.index → r.2.1[line]? = ttys[line]?) ∧
    (∀ r, goldfish_tty_close ttys tty = some r →
      ∀ line, line ≠ tty.index → r.1[line]? = ttys[line]?) := by
  have hlt : tty.index < ttys.length := (List.getElem?_eq_some.mp hq).1
  refine ⟨?_, ?_, ?_, ?_⟩
  · intro hown hmin hmax
    have hs : s32 (qtty.opencount + 1) = qtty.opencount + 1 :=
      s32_of_range _ (by omega) (by omega)
    have hret : (goldfish_tty_open_qtty qtty tty.addr).1 = 0 := by
      simp only [goldfish_tty_open_qtty, hown, if_true]
      split <;> rfl
    refine ⟨ttys.set tty.index (goldfish_tty_open_qtty qtty tty.addr).2.1,
      (goldfish_tty_open_qtty qtty tty.addr).2.2, (goldfish_tty_open_qtty qtty tty.addr).2.1,
      ?_, List.getElem?_set_self hlt, ?_⟩
    · simp only [goldfish_tty_open, hq, hret]
    · simp only [goldfish_tty_open_qtty, hown, if_true, hs]
      split <;> rfl
  · intro h1 h2
    have hown : ¬(qtty.tty = none ∨ qtty.tty = some tty.addr) := by
      rintro (h | h)
      · exact h1 h
      · exact h2 h
    simp only [goldfish_tty_open, hq, goldfish_tty_open_qtty, hown, if_false,
      list_set_same _ _ _ hq]
  · intro r hr line hline
    simp only [goldfish_tty_open, hq, Option.some.injEq] at hr
    subst hr
    exact List.getElem?_set_ne (Ne.symm hline)
  · intro r hr line hline
    simp only [goldfish_tty_close, hq, Option.some.injEq] at hr
    subst hr
    exact List.getElem?_set_ne (Ne.symm hline)

/-- C11, witness: line 0 of `sample_ttys`, which has no owner, and session
`sample_tty_a`. -/
theorem goldfish_tty_open_owner_rule_witness :
    sample_ttys[sample_tty_a.index]? =
        some { base := 4278198272, irq := 4, opencount := 0, tty := none } ∧
    (((none : Option Nat) = none ∨ (none : Option Nat) = some sample_tty_a.addr) →
      -2147483648 ≤ (0 : Int) → (0 : Int) < 2147483647 →
      ∃ ttys' log qtty', goldfish_tty_open sample_ttys sample_tty_a = some (0, ttys', log) ∧
        ttys'[sample_tty_a.index]? = some qtty' ∧ qtty'.opencount = 0 + 1) ∧
    ((none : Option Nat) ≠ none → (none : Option Nat) ≠ some sample_tty_a.addr →
      goldfish_tty_open sample_ttys sample_tty_a = some (-EBUSY, sample_ttys, [])) ∧
    (∀ r, goldfish_tty_open sample_ttys sample_tty_a = some r →
      ∀ line, line ≠ sample_tty_a.index → r.2.1[line]? = sample_ttys[line]?) ∧
    (∀ r, goldfish_tty_close sample_ttys sample_tty_a = some r →
      ∀ line, line ≠ sample_tty_a.index → r.1[line]? = sample_ttys[line]?) :=
  ⟨by decide, goldfish_tty_open_owner_rule sample_ttys sample_tty_a
    { base := 4278198272, irq := 4, opencount := 0, tty := none } (by decide)⟩

/-- C14: take any sequence of `goldfish_tty_open` and `goldfish_tty_close` calls,
fewer than `2^31` of them, by sessions for lines of the array, starting with
every line at `opencount == 0` and without owner.  Every call returns.  After
each call, on every line: `opencount >= 0`; `opencount == 0` exactly when the
line has no owner; and the last command that the calls so far wrote to the
line's `GOLDFISH_TTY_CMD` is `GOLDFISH_TTY_CMD_INT_ENABLE` exactly when
`opencount > 0`.  A close by a session that does not own its line leaves the
array as it was and accesses no register. -/
theorem tty_open_close_sequences (ttys : List goldfish_tty) (calls : List TtyCall)
    (hinit : ∀ q ∈ ttys, q.opencount = 0 ∧ q.tty = none)
    (hidx : ∀ c ∈ calls, c.session.index < ttys.length)
    (hlen : calls.length < 2147483648) :
    (run_tty_calls ttys calls).length = calls.length ∧
    ∀ k step, (run_tty_calls ttys calls)[k]? = some step →
      (∀ line q, step.after[line]? = some q →
        0 ≤ q.opencount ∧ (q.opencount = 0 ↔ q.tty = none) ∧
        (last_tty_command line none ((run_tty_calls ttys calls).take (k + 1))
            = some GOLDFISH_TTY_CMD_INT_ENABLE ↔ 0 < q.opencount)) ∧
      (∀ tty q, step.call = TtyCall.do_close tty → step.before[tty.index]? = some q →
        q.tty ≠ some tty.addr → step.after = step.before ∧ step.log = []) := by
  apply run_tty_calls_ok calls ttys (fun _ => none) hidx
  intro line q hq
  obtain ⟨h1, h2⟩ := hinit q (List.getElem?_mem hq)
  refine ⟨by omega, by simp [h1, h2], by simp [h1], by omega⟩

/-- C14, witness: the calls `sample_tty_calls` on `sample_ttys`; they return 0, 0,
`-EBUSY`, 0, 0, 0, 0, 0 and leave line 0 with `opencount == 1`. -/
theorem tty_open_close_sequences_witness :
    ((∀ q ∈ sample_ttys, q.opencount = 0 ∧ q.tty = none) ∧
      (∀ c ∈ sample_tty_calls, c.session.index < sample_ttys.length) ∧
      sample_tty_calls.length < 2147483648 ∧
      (run_tty_calls sample_ttys sample_tty_calls).map TtyStep.ret
        = [0, 0, -EBUSY, 0, 0, 0, 0, 0] ∧
      (run_tty_calls sample_ttys sample_tty_calls).map
          (fun s => (s.after[0]?.map goldfish_tty.opencount, s.after[0]?.map goldfish_tty.tty))
        = [(some 1, some (some sample_tty_a.addr)), (some 2, some (some sample_tty_a.addr)),
           (some 2, some (some sample_tty_a.addr)), (some 2, some (some sample_tty_a.addr)),
           (some 1, some (some sample_tty_a.addr)), (some 1, some (some sample_tty_a.addr)),
           (some 0, some none), (some 1, some (some sample_tty_b.addr))]) ∧
    ((run_tty_calls sample_ttys sample_tty_calls).length = sample_tty_calls.length ∧
    ∀ k step, (run_tty_calls sample_ttys sample_tty_calls)[k]? = some step →
      (∀ line q, step.after[line]? = some q →
        0 ≤ q.opencount ∧ (q.opencount = 0 ↔ q.tty = none) ∧
        (last_tty_command line none ((run_tty_calls sample_ttys sample_tty_calls).take (k + 1))
            = some GOLDFISH_TTY_CMD_INT_ENABLE ↔ 0 < q.opencount)) ∧
      (∀ tty q, step.call = TtyCall.do_close tty → step.before[tty.index]? = some q →
        q.tty ≠ some tty.addr → step.after = step.before ∧ step.log = [])) :=
  ⟨⟨by decide, by decide, by decide, by decide, by decide⟩,
    tty_open_close_sequences sample_ttys sample_tty_calls (by decide) (by decide) (by decide)⟩

/-! ## Status bits: lemmas -/

theorem probe_buffers_distinct (data : goldfish_audio) (buffer_virt : Nat) :
    (probe_buffers data buffer_virt).write_buffer1 ≠
      (probe_buffers data buffer_virt).write_buffer2 := by
  simp [probe_buffers, WRITE_BUFFER_SIZE]

theorem write_loop_eq_chunk (ufault : Int → Nat → Bool) (s : WriteState) :
    write_loop_from ufault s =
      if s.count > 0 then
        match goldfish_audio_write_chunk ufault s [] [] with
        | ChunkResult.blocked => none
        | ChunkResult.fault out => some out
        | ChunkResult.next s' => write_loop_from ufault s'
      else some ⟨s.result, s.data, s.events, s.log⟩ := by
  unfold write_loop_from
  rw [goldfish_audio_write_loop]
  by_cases hpos : s.count > 0
  · rw [dif_pos hpos, if_pos hpos]
    simp only [goldfish_audio_write_chunk, take_interrupts, List.append_nil]
    cases wait_event_interruptible
        (fun d => decide (d.buffer_status &&&
          (AUDIO_INT_WRITE_BUFFER_1_EMPTY ||| AUDIO_INT_WRITE_BUFFER_2_EMPTY) ≠ 0))
        s.data s.events with
    | none => rfl
    | some r =>
      obtain ⟨ret, data1, evs1, acts⟩ := r
      simp only
      by_cases hf : ufault s.buf (u32 (write_copy s.count)) = true
      · simp only [if_pos hf]
      · simp only [if_neg hf]
        by_cases hk : (if data1.buffer_status &&& AUDIO_INT_WRITE_BUFFER_1_EMPTY ≠ 0
            then data1.write_buffer1 else data1.write_buffer2) = data1.write_buffer1
        · simp only [if_pos hk]
        · simp only [if_neg hk]
  · rw [dif_neg hpos, if_neg hpos]

theorem sample_chunk_evaluates :
    goldfish_audio_write_chunk (fun _ _ => false) sample_write_state [] [] =
      ChunkResult.next sample_write_next := by
  decide

theorem sample_chunk_interrupted_evaluates :
    goldfish_audio_write_chunk (fun _ _ => false) sample_write_state [3] [7] =
      ChunkResult.next sample_write_next_interrupted := by
  decide

theorem sample_write_100_evaluates :
    goldfish_audio_write (fun _ _ => false) (sample_dev 2) 0 100 [] =
      some ⟨100, sample_dev 0, [], sample_write_next.log⟩ := by
  have h := write_loop_eq_chunk (fun _ _ => false) sample_write_state
  rw [if_pos (by decide), sample_chunk_evaluates] at h
  simp only at h
  rw [write_loop_eq_chunk _ sample_write_next, if_neg (by decide)] at h
  exact h

/-! ## Results: the choice of the write buffer -/

theorem wait_satisfied_at_once (condition : goldfish_audio → Bool) (data : goldfish_audio)
    (evs : List Event) (h : condition data = true) :
    wait_event_interruptible condition data evs = some (0, data, evs, []) := by
  cases evs <;> simp [wait_event_interruptible, h]

theorem read_loop_once_full (ufault : Int → Nat → Bool) (avail : List Nat) :
    ∀ (count : Nat) (data : goldfish_audio) (buf result : Int) (evs : List Event)
      (log : List Action) (out : Out),
      data.buffer_status &&& AUDIO_INT_READ_BUFFER_FULL ≠ 0 →
      goldfish_audio_read_loop ufault data buf count result evs log avail = some out →
      out.data = data ∧ out.events = evs := by
  induction avail with
  | nil =>
    intro count data buf result evs log out _ hrun
    simp only [goldfish_audio_read_loop] at hrun
    split at hrun
    · simp at hrun
    · simp only [Option.some.injEq] at hrun
      subst hrun
      exact ⟨rfl, rfl⟩
  | cons a avail ih =>
    intro count data buf result evs log out hfull hrun
    simp only [goldfish_audio_read_loop] at hrun
    split at hrun
    · rw [wait_satisfied_at_once _ data evs (by simpa using hfull)] at hrun
      simp only at hrun
      split at hrun
      · simp only [Option.some.injEq] at hrun
        subst hrun
        exact ⟨rfl, rfl⟩
      · exact ih _ _ _ _ _ _ out hfull hrun
    · simp only [Option.some.injEq] at hrun
      subst hrun
      exact ⟨rfl, rfl⟩

/-! ## Results: the read-buffer-full flag -/

/-- C13, the code at a failing input: a read of 32768 bytes, two chunks, on a device
with the flag clear, and a single interrupt reporting the read buffer full.  The
first wait is ended by the interrupt.  After the first chunk is copied the
cached status is still 4: the second wait comes back at once with status 4,
no interrupt having been taken between the second `AUDIO_START_READ` and the
second read of `AUDIO_READ_BUFFER_AVAILABLE`, and the flag is still set when
the call returns. -/
theorem read_buffer_full_flag_stays_set :
    goldfish_audio_read (fun _ _ => false) (sample_dev 0) 0 32768 [Event.irq 4] [16384, 16384]
        = some read_32768_out ∧
      read_32768_out.data.buffer_status &&& AUDIO_INT_READ_BUFFER_FULL = 4 ∧
      read_32768_out.log.drop 6 =
        [Action.writel 16384 ((sample_dev 0).reg_base + AUDIO_START_READ),
          Action.wait_return 0 4,
          Action.readl ((sample_dev 0).reg_base + AUDIO_READ_BUFFER_AVAILABLE) 16384,
          Action.copy_to_user 16384 (sample_dev 0).read_buffer 16384 false] := by
  decide

/-! ## The console set-up: lemmas -/

theorem console_setup_out_of_bounds_iff (ttys : List goldfish_tty) (index : Int)
    (hlen : ttys.length = goldfish_tty_line_count)
    (hlo : -32768 ≤ index) (hhi : index < 32768) :
    goldfish_tty_console_setup ttys index = none ↔ index = goldfish_tty_line_count := by
  simp only [goldfish_tty_console_setup, goldfish_tty_line_count, u32] at *
  by_cases hneg : index < 0
  · have h1 : (index % 4294967296).toNat > 8 := by omega
    simp only [h1, if_true]
    constructor
    · intro h; cases h
    · intro h; omega
  · by_cases hbig : (index % 4294967296).toNat > 8
    · simp only [hbig, if_true]
      constructor
      · intro h; cases h
      · intro h; omega
    · simp only [hbig, if_false, hneg]
      by_cases h8 : index = 8
      · subst h8
        have : ttys[8]? = none := List.getElem?_eq_none (by simp [hlen])
        simp [this]
      · have hlt : index.toNat < ttys.length := by omega
        have hsome : ttys[index.toNat]? = some ttys[index.toNat] := by simp [hlt]
        rw [hsome]
        constructor
        · intro h
          simp only at h
          split at h <;> cases h
        · intro h
          exact absurd h h8

/-! ## Results: the console set-up -/

/-- C15, the code at a failing input: `goldfish_ttys` has the 8 entries that
`goldfish_tty_create_driver` allocates.  Console index 8 passes the test
`(unsigned)co->index > goldfish_tty_line_count` and `goldfish_ttys[8]`, which is
outside the array, is read.  Index 9 and the negative index -1 are rejected
with `-ENODEV` before the array is indexed; index 0 of `sample_ttys` is valid. -/
theorem console_setup_reads_past_the_array :
    goldfish_tty_create_driver.length = 8 ∧ sample_ttys.length = 8 ∧
      goldfish_tty_console_setup goldfish_tty_create_driver 8 = none ∧
      goldfish_tty_console_setup sample_ttys 8 = none ∧
      goldfish_tty_console_setup sample_ttys 9 = some (-ENODEV) ∧
      goldfish_tty_console_setup sample_ttys (-1) = some (-ENODEV) ∧
      goldfish_tty_console_setup sample_ttys 0 = some 0 := by
  decide

end Goldfish
